import Mathlib

/-!
# Verification of the hyper-sdk-playwright interception engine

A shallow embedding of the repository's four protection-scheme controllers
(Akamai, DataDome, Incapsula in its static and dynamic variants, Kasada),
their capture state, gates, and request-mutation logic, together with
theorems settling the specification's testable properties.

JavaScript strings are modelled as Lean `String`s; the JS builtins
`startsWith`, `includes`, truthiness of strings, `URLSearchParams` access,
`Map`/plain-object assignment are modelled by explicit executable
definitions below.  External oracle calls (the hyper-sdk-js functions) are
modelled as function parameters from the structured input the source
builds to the result the source consumes.
-/

namespace HyperSdk

/-! ## JS string primitives (models of the ECMAScript builtins) -/

/-- Model of `needle` being a leading segment of `hay` (char lists). -/
def leadsWith : List Char → List Char → Bool
  | [], _ => true
  | _ :: _, [] => false
  | p :: ps, c :: cs => p == c && leadsWith ps cs

/-- Model of JS `String.prototype.includes`: `needle` occurs inside `hay`. -/
def includesChs (needle : List Char) : List Char → Bool
  | [] => leadsWith needle []
  | c :: t => leadsWith needle (c :: t) || includesChs needle t

/-- JS `s.startsWith(pre)`. -/
def startsWithJs (s pre : String) : Bool := leadsWith pre.toList s.toList

/-- JS `s.includes(sub)`. -/
def includesJs (s sub : String) : Bool := includesChs sub.toList s.toList

/-- JS `s.toLowerCase()` (ASCII case folding suffices for header names). -/
def toLowerJs (s : String) : String := String.mk (s.toList.map Char.toLower)

/-- JS truthiness of a string: non-empty. -/
def truthyStr (s : String) : Bool := s != ""

/-- JS truthiness of a possibly-absent string (`undefined`/`null` and `""`
are falsy). -/
def truthyOpt : Option String → Bool
  | none => false
  | some s => truthyStr s

/-- First value bound to `k` in an insertion-ordered association list:
model of JS `Map.prototype.get`, plain-object indexing and
`URLSearchParams.get` (absence gives `undefined`/`null`). -/
def lookupJs (k : String) : List (String × String) → Option String
  | [] => none
  | (k', v) :: t => if k' = k then some v else lookupJs k t

/-- JS `Map.prototype.set` / plain-object assignment on an
insertion-ordered association list: update the first binding in place, or
append a fresh binding at the end. -/
def assocSet (l : List (String × String)) (k v : String) : List (String × String) :=
  match l with
  | [] => [(k, v)]
  | (k', v') :: t => if k' == k then (k, v) :: t else (k', v') :: assocSet t k v

/-! ## URL model

The handlers parse request URLs with the WHATWG `URL` constructor and only
ever use the pathname and the search parameters; a URL is modelled by those
parsed components, and `href` re-serializes them. -/

structure Url where
  scheme : String
  host : String
  pathname : String
  query : List (String × String)
deriving DecidableEq, Repr

def Url.queryString (u : Url) : String :=
  match u.query with
  | [] => ""
  | _ => "?" ++ String.intercalate "&" (u.query.map (fun kv => kv.1 ++ "=" ++ kv.2))

def Url.href (u : Url) : String :=
  u.scheme ++ "://" ++ u.host ++ u.pathname ++ u.queryString

/-- JS `url.searchParams.get(k)`: first value bound to `k`, else `null`. -/
def Url.searchParamsGet (u : Url) (k : String) : Option String :=
  lookupJs k u.query

/-- JS `url.searchParams.has(k)`. -/
def Url.searchParamsHas (u : Url) (k : String) : Bool :=
  (u.searchParamsGet k).isSome

/-- JS `url.searchParams.delete(k)`: removes every binding of `k`. -/
def Url.searchParamsDelete (u : Url) (k : String) : Url :=
  { u with query := u.query.filter (fun kv => kv.1 != k) }

/-! ## Incapsula controller, static (tenant-map) variant

Embedded from the `IncapsulaHandler` class whose configuration carries a
`scriptPathToSitekey` map (insertion-ordered). -/

namespace IncapsulaStatic

/-- The mutable fields of the static-variant handler that the embedded
operations read or write. -/
structure State where
  scriptPathToSitekey : List (String × String)
  interceptedPaths : List String
  activeSitekeys : List (String × String)
  scriptPathToScriptUrl : List (String × String)
  userAgent : String
  ipAddress : String
  acceptLanguage : String
deriving DecidableEq, Repr

/-- Source loop of `findMatchingScriptPath`: iterate the map's keys in
insertion order, return the first whose text leads the URL's pathname. -/
def findKeyLoop (pathname : String) : List String → Option String
  | [] => none
  | scriptPath :: rest =>
    if startsWithJs pathname scriptPath then some scriptPath
    else findKeyLoop pathname rest

/-- `findMatchingScriptPath`: prefix match of the parsed pathname against
the configured script paths, first (insertion-order) match wins. -/
def findMatchingScriptPath (st : State) (u : Url) : Option String :=
  findKeyLoop u.pathname (st.scriptPathToSitekey.map Prod.fst)

/-- `shouldInterceptIncapsulaRequest`. -/
def shouldInterceptIncapsulaRequest (requestUrl : Url) (method : String)
    (scriptPath : String) : Bool :=
  method == "POST" && includesJs requestUrl.href scriptPath

/-- `getSitekeyForRequest`: requires a truthy `d` search parameter and a
configured mapping; a falsy mapped sitekey degrades to `null`. -/
def getSitekeyForRequest (st : State) (requestUrl : Url) (scriptPath : String) :
    Option String :=
  let domainParam := requestUrl.searchParamsGet "d"
  if truthyOpt domainParam && (lookupJs scriptPath st.scriptPathToSitekey).isSome then
    match lookupJs scriptPath st.scriptPathToSitekey with
    | some baseSitekey => if truthyStr baseSitekey then some baseSitekey else none
    | none => none
  else none

/-- Input the static variant hands to `generateReese84Sensor`
(`Reese84Input` constructor arguments, in source order). -/
structure Reese84Input where
  userAgent : String
  sitekey : String
  ipAddress : String
  acceptLanguage : String
  pageUrl : String
  pow : String
  scriptContent : String
  scriptUrl : String
deriving DecidableEq, Repr

/-- An intercepted request as the route callback sees it. -/
structure Request where
  url : Url
  method : String
  contentType : Option String
  postData : Option String
deriving DecidableEq, Repr

/-- What the route callback does with the request in the end. -/
inductive Outcome where
  /-- `route.continue()` with nothing overridden. -/
  | continueOriginal
  /-- `route.continue({ postData })`: body replaced. -/
  | continueWithBody (newBody : String)
deriving DecidableEq, Repr

/-- `handleIncapsulaRequest` of the static variant: gate on content type
only, resolve the sitekey, record bookkeeping, call the oracle and replace
the body.  A `null` content type makes `contentType.includes` throw; the
route callback's catch then forwards the request unmodified. -/
def handleIncapsulaRequest (oracle : Reese84Input → String) (st : State)
    (pageUrl pageUserAgent : String) (scriptPath : String) (req : Request) :
    State × Outcome :=
  match req.contentType with
  | none => (st, .continueOriginal)
  | some contentType =>
    if !(includesJs contentType "application/json") then
      (st, .continueOriginal)
    else
      match getSitekeyForRequest st req.url scriptPath with
      | none => (st, .continueOriginal)
      | some sitekey =>
        let st₁ : State :=
          { st with
            interceptedPaths :=
              if st.interceptedPaths.contains scriptPath then st.interceptedPaths
              else st.interceptedPaths ++ [scriptPath],
            activeSitekeys := assocSet st.activeSitekeys scriptPath sitekey,
            userAgent := if truthyStr st.userAgent then st.userAgent else pageUserAgent }
        let result := oracle
          { userAgent := st₁.userAgent
            sitekey := sitekey
            ipAddress := st₁.ipAddress
            acceptLanguage := st₁.acceptLanguage
            pageUrl := pageUrl
            pow := ""
            scriptContent := ""
            scriptUrl := (lookupJs scriptPath st₁.scriptPathToScriptUrl).getD "" }
        (st₁, .continueWithBody result)

/-- The broad route pattern `.*\?.*d=.*`: some `?` occurs and `d=` occurs
after it. -/
def dRoutePattern (s : String) : Bool :=
  includesChs ('?' :: []) s.toList &&
    includesChs "d=".toList ((s.toList.dropWhile (fun c => c != '?')).drop 1)

/-- The whole request-interception callback registered for the broad
pattern: path matching, the POST/includes check, then
`handleIncapsulaRequest`; every non-matching request is forwarded
untouched. -/
def interceptStep (oracle : Reese84Input → String) (st : State)
    (pageUrl pageUserAgent : String) (req : Request) : State × Outcome :=
  match findMatchingScriptPath st req.url with
  | some scriptPath =>
    if shouldInterceptIncapsulaRequest req.url req.method scriptPath then
      handleIncapsulaRequest oracle st pageUrl pageUserAgent scriptPath req
    else (st, .continueOriginal)
  | none => (st, .continueOriginal)

/-- Snapshot returned by `getStatus`. -/
structure Status where
  interceptedPaths : List String
  activeSitekeys : List (String × String)
  scriptPathMappings : List (String × String)
  scriptUrls : List (String × String)
deriving DecidableEq, Repr

/-- `getStatus`. -/
def getStatus (st : State) : Status :=
  { interceptedPaths := st.interceptedPaths
    activeSitekeys := st.activeSitekeys
    scriptPathMappings := st.scriptPathToSitekey
    scriptUrls := st.scriptPathToScriptUrl }

/-- `reset`: clear the capture record and the captured script URLs; the
configured sitekey map survives. -/
def reset (st : State) : State :=
  { st with
    interceptedPaths := []
    activeSitekeys := []
    scriptPathToScriptUrl := [] }

end IncapsulaStatic

/-! ## Incapsula controller, dynamic (script-discovery) variant -/

namespace IncapsulaDyn

structure State where
  detectedReese84Paths : List String
  scriptPathToScriptUrl : List (String × String)
  scriptPathToScriptContent : List (String × String)
  interceptedPaths : List String
  detectedScripts : List (String × String)
  userAgent : String
  ipAddress : String
  acceptLanguage : String
deriving DecidableEq, Repr

/-- Input the dynamic variant hands to `generateReese84Sensor`. -/
structure Reese84Input where
  userAgent : String
  ipAddress : String
  acceptLanguage : String
  pageUrl : String
  pow : String
  scriptContent : String
  scriptUrl : String
deriving DecidableEq, Repr

structure Request where
  url : Url
  method : String
  postData : Option String
deriving DecidableEq, Repr

inductive Outcome where
  | continueOriginal
  | continueWithBody (newBody : String)
deriving DecidableEq, Repr

/-- Source loop of the dynamic `findMatchingScriptPath` over the set of
detected reese84 paths (insertion order). -/
def findKeyLoop (pathname : String) : List String → Option String
  | [] => none
  | scriptPath :: rest =>
    if startsWithJs pathname scriptPath then some scriptPath
    else findKeyLoop pathname rest

def findMatchingScriptPath (st : State) (u : Url) : Option String :=
  findKeyLoop u.pathname st.detectedReese84Paths

/-- `handleIncapsulaRequest` of the dynamic variant: a body that starts
with a quote is a refresh call and passes through; otherwise the body is
replaced by the oracle result. -/
def handleIncapsulaRequest (oracle : Reese84Input → String) (st : State)
    (pageUrl pageUserAgent : String) (scriptPath : String) (req : Request) :
    State × Outcome :=
  match req.postData with
  | some postData =>
    if startsWithJs postData "\"" then (st, .continueOriginal)
    else handleCore oracle st pageUrl pageUserAgent scriptPath
  | none => handleCore oracle st pageUrl pageUserAgent scriptPath
where
  handleCore (oracle : Reese84Input → String) (st : State)
      (pageUrl pageUserAgent : String) (scriptPath : String) : State × Outcome :=
    let st₁ : State :=
      { st with
        interceptedPaths :=
          if st.interceptedPaths.contains scriptPath then st.interceptedPaths
          else st.interceptedPaths ++ [scriptPath],
        userAgent := if truthyStr st.userAgent then st.userAgent else pageUserAgent }
    let result := oracle
      { userAgent := st₁.userAgent
        ipAddress := st₁.ipAddress
        acceptLanguage := st₁.acceptLanguage
        pageUrl := pageUrl
        pow := ""
        scriptContent := (lookupJs scriptPath st₁.scriptPathToScriptContent).getD ""
        scriptUrl := (lookupJs scriptPath st₁.scriptPathToScriptUrl).getD "" }
    (st₁, .continueWithBody result)

/-- `reset` of the dynamic variant. -/
def reset (st : State) : State :=
  { st with
    interceptedPaths := []
    detectedScripts := []
    scriptPathToScriptUrl := []
    scriptPathToScriptContent := []
    detectedReese84Paths := [] }

structure Status where
  interceptedPaths : List String
  detectedScripts : List (String × String)
  scriptUrls : List (String × String)
deriving DecidableEq, Repr

def getStatus (st : State) : Status :=
  { interceptedPaths := st.interceptedPaths
    detectedScripts := st.detectedScripts
    scriptUrls := st.scriptPathToScriptUrl }

end IncapsulaDyn

/-! ## JSON envelope model

The Akamai handler wraps oracle results with `JSON.stringify`; only the
string-escaping relevant to `\"`, `\\` and the common control characters is
modelled (other characters are passed through). -/

def jsonEscapeChar (c : Char) : String :=
  if c = '"' then "\\\""
  else if c = '\\' then "\\\\"
  else if c = '\n' then "\\n"
  else if c = '\r' then "\\r"
  else if c = '\t' then "\\t"
  else String.singleton c

def jsonQuote (s : String) : String :=
  "\"" ++ String.join (s.toList.map jsonEscapeChar) ++ "\""

/-! ## Akamai controller -/

namespace Akamai

/-- The `ScriptCapture` record. -/
structure ScriptCapture where
  scriptUrl : Option String
  dynamicValues : Option String
  sbsdScriptUrl : Option String
  sbsdResponseText : Option String
  sbsdUuid : Option String
deriving DecidableEq, Repr

/-- The handler's mutable fields; `dynamicValuesResolved` models whether
`dynamicValuesPromise` has been resolved. -/
structure State where
  scriptCapture : ScriptCapture
  sessionContext : String
  sbsdIndex : Nat
  dynamicValuesResolved : Bool
  userAgent : String
  ipAddress : String
  acceptLanguage : String
deriving DecidableEq, Repr

/-- The capture record right after construction or `reset`. -/
def emptyCapture : ScriptCapture :=
  { scriptUrl := none, dynamicValues := none, sbsdScriptUrl := none,
    sbsdResponseText := none, sbsdUuid := none }

/-- `reset`. -/
def reset (st : State) : State :=
  { st with
    scriptCapture := emptyCapture
    sessionContext := ""
    sbsdIndex := 0
    dynamicValuesResolved := false }

/-- Snapshot returned by `getStatus`. -/
structure Status where
  scriptUrl : Option String
  dynamicValues : Option String
  sbsdScriptUrl : Option String
  sbsdResponseText : Option String
  sbsdUuid : Option String
  sessionContext : String
  sbsdIndex : Nat
deriving DecidableEq, Repr

def getStatus (st : State) : Status :=
  { scriptUrl := st.scriptCapture.scriptUrl
    dynamicValues := st.scriptCapture.dynamicValues
    sbsdScriptUrl := st.scriptCapture.sbsdScriptUrl
    sbsdResponseText := st.scriptCapture.sbsdResponseText
    sbsdUuid := st.scriptCapture.sbsdUuid
    sessionContext := st.sessionContext
    sbsdIndex := st.sbsdIndex }

/-- The UUID shape tested by `uuidRegex` (case-insensitive hex, hyphens at
the four fixed offsets). -/
def uuidHexDigit (c : Char) : Bool :=
  c.isDigit || ('a' ≤ c && c ≤ 'f') || ('A' ≤ c && c ≤ 'F')

def uuidShape (s : String) : Bool :=
  s.length == 36 &&
    (s.toList.enum.all fun ic =>
      if ic.1 = 8 || ic.1 = 13 || ic.1 = 18 || ic.1 = 23 then ic.2 == '-'
      else uuidHexDigit ic.2)

/-- `handleSbsdScriptResponse`: a GET response whose URL carries a
UUID-shaped `v` parameter is the SBSD script; store the URL stripped of
`v`, the UUID, the body, and reset the monotonic index. -/
def handleSbsdScriptResponse (st : State) (requestUrl : Url) (body : String) : State :=
  match requestUrl.searchParamsGet "v" with
  | none => st
  | some vParam =>
    if truthyStr vParam && uuidShape vParam then
      { st with
        scriptCapture :=
          { st.scriptCapture with
            sbsdScriptUrl := some (requestUrl.searchParamsDelete "v").href
            sbsdUuid := some vParam
            sbsdResponseText := some body }
        sbsdIndex := 0 }
    else st

/-- `handleSensorScriptResponse`: store the sensor script URL, reset the
session context, parse the dynamic values through the oracle, resolve the
gate.  `parseOracle` models `parseV3DynamicValues`. -/
def handleSensorScriptResponse (parseOracle : String → String) (st : State)
    (requestUrl : String) (body : String) : State :=
  { st with
    scriptCapture :=
      { st.scriptCapture with
        scriptUrl := some requestUrl
        dynamicValues := some (parseOracle body) }
    sessionContext := ""
    dynamicValuesResolved := true }

/-- `shouldInterceptSbsdRequest`. -/
def shouldInterceptSbsdRequest (st : State) (requestUrl : String) (method : String) : Bool :=
  match st.scriptCapture.sbsdScriptUrl with
  | none => false
  | some u => requestUrl == u && method == "POST"

/-- `shouldInterceptSensorRequest`. -/
def shouldInterceptSensorRequest (st : State) (requestUrl : String) (method : String) : Bool :=
  match st.scriptCapture.scriptUrl with
  | none => false
  | some u => requestUrl == u && method == "POST"

/-- `SbsdInput` constructor arguments, in source order. -/
structure SbsdInput where
  index : Nat
  uuid : String
  cookie : String
  pageUrl : String
  userAgent : String
  script : String
  ipAddress : String
  acceptLanguage : String
deriving DecidableEq, Repr

/-- First cookie value bound to `name` (`cookies.find(...)?.value`). -/
def cookieValue (cookies : List (String × String)) (name : String) : Option String :=
  (cookies.find? (fun c => c.1 == name)).map Prod.snd

/-- The `sbsd_o`/`bm_so` lookup. -/
def bmsoValue (cookies : List (String × String)) : Option String :=
  (cookies.find? (fun c => c.1 == "sbsd_o" || c.1 == "bm_so")).map Prod.snd

inductive SbsdOutcome where
  /-- `route.continue()` from the missing-prerequisite branch. -/
  | continueOriginal
  /-- `route.continue({ postData })` with the JSON envelope of the oracle
  result; the oracle input is recorded. -/
  | mutated (input : SbsdInput) (newBody : String)
deriving DecidableEq, Repr

/-- `handleSbsdRequest`: fail open on a missing governing cookie or
missing captured SBSD data; otherwise call the oracle with index zero when
the outgoing URL carries a `t` parameter, else with the current counter,
and increment the counter. -/
def handleSbsdRequest (oracle : SbsdInput → String) (st : State)
    (pageUrl pageUserAgent : String) (cookies : List (String × String))
    (requestUrl : Url) : State × SbsdOutcome :=
  let bmso := bmsoValue cookies
  if !(truthyOpt bmso && truthyOpt st.scriptCapture.sbsdResponseText &&
      truthyOpt st.scriptCapture.sbsdUuid) then
    (st, .continueOriginal)
  else
    let ua := if truthyStr st.userAgent then st.userAgent else pageUserAgent
    let hasTimeParameter := requestUrl.searchParamsHas "t"
    let indexToUse := if hasTimeParameter then 0 else st.sbsdIndex
    let input : SbsdInput :=
      { index := indexToUse
        uuid := (st.scriptCapture.sbsdUuid).getD ""
        cookie := bmso.getD ""
        pageUrl := pageUrl
        userAgent := ua
        script := (st.scriptCapture.sbsdResponseText).getD ""
        ipAddress := st.ipAddress
        acceptLanguage := st.acceptLanguage }
    let result := oracle input
    ({ st with sbsdIndex := st.sbsdIndex + 1, userAgent := ua },
      .mutated input ("\x7b\"body\":" ++ jsonQuote result ++ "\x7d"))

/-- `SensorInput` constructor arguments (the literal `"3"` version field
and the `undefined` placeholder argument are omitted as constants). -/
structure SensorInput where
  abck : String
  bmsz : String
  pageUrl : String
  userAgent : String
  ipAddress : String
  acceptLanguage : String
  context : String
  dynamicValues : String
deriving DecidableEq, Repr

structure SensorResult where
  payload : String
  context : String
deriving DecidableEq, Repr

inductive SensorOutcome where
  /-- Suspended on `await this.dynamicValuesPromise`. -/
  | held
  /-- `route.continue()` unmodified (missing prerequisite). -/
  | continueOriginal
  | mutated (input : SensorInput) (newBody : String)
deriving DecidableEq, Repr

/-- `handleSensorRequest` together with its gate: the POST is held until
the dynamic-values gate is satisfied; then the `_abck` and `bm_sz` cookies
are read and a missing prerequisite forwards the original request
unmodified; otherwise the oracle result replaces the body and the returned
context token is stored. -/
def handleSensorRequest (oracle : SensorInput → SensorResult) (st : State)
    (pageUrl pageUserAgent : String) (cookies : List (String × String)) :
    State × SensorOutcome :=
  if !st.dynamicValuesResolved then (st, .held)
  else
    let abck := cookieValue cookies "_abck"
    let bmsz := cookieValue cookies "bm_sz"
    if !(truthyOpt abck && truthyOpt bmsz &&
        truthyOpt st.scriptCapture.dynamicValues) then
      (st, .continueOriginal)
    else
      let ua := if truthyStr st.userAgent then st.userAgent else pageUserAgent
      let input : SensorInput :=
        { abck := abck.getD ""
          bmsz := bmsz.getD ""
          pageUrl := pageUrl
          userAgent := ua
          ipAddress := st.ipAddress
          acceptLanguage := st.acceptLanguage
          context := st.sessionContext
          dynamicValues := (st.scriptCapture.dynamicValues).getD "" }
      let result := oracle input
      ({ st with sessionContext := result.context, userAgent := ua },
        .mutated input ("\x7b\"sensor_data\":" ++ jsonQuote result.payload ++ "\x7d"))

/-! ### SBSD trace semantics -/

/-- Events that reach the SBSD observation and interception channels. -/
inductive SbsdEvent where
  /-- A completed GET response (fed to `handleSbsdScriptResponse`). -/
  | scriptResponse (url : Url) (body : String)
  /-- A POST caught by the SBSD route. -/
  | post (url : Url) (cookies : List (String × String))
deriving Repr

/-- Outcome of a routed POST, including the route-level guard. -/
inductive SbsdRouteOutcome where
  /-- `shouldInterceptSbsdRequest` was false: plain `route.continue()`. -/
  | notIntercepted
  | continueOriginal
  | mutated (input : SbsdInput) (newBody : String)
deriving DecidableEq, Repr

/-- One event of the SBSD machinery; POST events produce an outcome. -/
def sbsdStep (oracle : SbsdInput → String) (pageUrl pageUserAgent : String)
    (st : State) : SbsdEvent → State × Option SbsdRouteOutcome
  | .scriptResponse url body => (handleSbsdScriptResponse st url body, none)
  | .post url cookies =>
    if shouldInterceptSbsdRequest st url.href "POST" then
      let (st', o) := handleSbsdRequest oracle st pageUrl pageUserAgent cookies url
      (st', some (match o with
        | .continueOriginal => .continueOriginal
        | .mutated i b => .mutated i b))
    else (st, some .notIntercepted)

/-- Process a list of events, collecting the POST outcomes in order. -/
def runSbsd (oracle : SbsdInput → String) (pageUrl pageUserAgent : String)
    (st : State) : List SbsdEvent → State × List SbsdRouteOutcome
  | [] => (st, [])
  | e :: rest =>
    let (st', o) := sbsdStep oracle pageUrl pageUserAgent st e
    let (st'', outs) := runSbsd oracle pageUrl pageUserAgent st' rest
    (st'', (match o with | none => [] | some x => [x]) ++ outs)

/-- The index each mutated POST observed, in order. -/
def observedIndices (outs : List SbsdRouteOutcome) : List Nat :=
  outs.filterMap fun o =>
    match o with
    | .mutated i _ => some i.index
    | _ => none

end Akamai

/-! ## Base64 decoding (model of Node's `Buffer.from(s, 'base64')`)

Invalid characters (including `=` padding) are skipped; a trailing group
of two or three sextets yields one or two bytes, a lone trailing sextet is
dropped. -/

def base64CharVal (c : Char) : Option Nat :=
  if 'A' ≤ c && c ≤ 'Z' then some (c.toNat - 65)
  else if 'a' ≤ c && c ≤ 'z' then some (c.toNat - 97 + 26)
  else if '0' ≤ c && c ≤ '9' then some (c.toNat - 48 + 52)
  else if c = '+' then some 62
  else if c = '/' then some 63
  else none

def base64Group : List Nat → List Nat
  | [] => []
  | [_] => []
  | [a, b] => [a * 4 + b / 16]
  | [a, b, c] => [a * 4 + b / 16, (b % 16) * 16 + c / 4]
  | a :: b :: c :: d :: rest =>
    (a * 4 + b / 16) :: ((b % 16) * 16 + c / 4) :: ((c % 4) * 64 + d) :: base64Group rest

/-- Base64 decoding to a byte list. -/
def base64Decode (s : String) : List Nat :=
  base64Group (s.toList.filterMap base64CharVal)

/-! ## Kasada controller -/

namespace Kasada

/-- The handler's mutable fields; `gateSatisfied` models whether
`ipsScriptPromise` has been resolved. -/
structure State where
  ipsScriptUrl : Option String
  ipsResponseText : Option String
  tlEndpointUrl : Option String
  gateSatisfied : Bool
  userAgent : String
  ipAddress : String
  acceptLanguage : String
deriving DecidableEq, Repr

/-- State of a freshly constructed handler. -/
def freshState (userAgent ipAddress acceptLanguage : String) : State :=
  { ipsScriptUrl := none, ipsResponseText := none, tlEndpointUrl := none,
    gateSatisfied := false, userAgent := userAgent, ipAddress := ipAddress,
    acceptLanguage := acceptLanguage }

/-- `reset`. -/
def reset (st : State) : State :=
  { st with
    ipsScriptUrl := none
    ipsResponseText := none
    tlEndpointUrl := none
    gateSatisfied := false }

structure Status where
  ipsScriptUrl : Option String
  ipsResponseText : Option String
  tlEndpointUrl : Option String
deriving DecidableEq, Repr

def getStatus (st : State) : Status :=
  { ipsScriptUrl := st.ipsScriptUrl
    ipsResponseText := st.ipsResponseText
    tlEndpointUrl := st.tlEndpointUrl }

/-- The fixed two-segment identifier shared by the IPS script and the TL
endpoint. -/
def kasadaIdent : String :=
  "149e9513-01fa-4fb0-aad4-566afd725d1b/2d206a39-8ed7-437e-a3be-862e0f06eea3"

/-- The unanchored `ips.js` pattern. -/
def ipsScriptPattern (url : String) : Bool :=
  includesJs url (kasadaIdent ++ "/ips.js")

/-- The end-anchored TL endpoint pattern. -/
def tlEndpointPattern (url : String) : Bool :=
  leadsWith (kasadaIdent ++ "/tl").toList.reverse url.toList.reverse

/-- `handleIpsScriptResponse`: on a matching GET response, cache URL and
body and resolve the gate (resolving an already-resolved promise re-fires
nothing). -/
def handleIpsScriptResponse (st : State) (requestUrl body : String) : State :=
  if ipsScriptPattern requestUrl then
    { st with
      ipsScriptUrl := some requestUrl
      ipsResponseText := some body
      gateSatisfied := true }
  else st

/-- `shouldInterceptTlRequest`. -/
def shouldInterceptTlRequest (requestUrl method : String) : Bool :=
  tlEndpointPattern requestUrl && method == "POST"

/-- `KasadaPayloadInput` constructor arguments, in source order. -/
structure KasadaPayloadInput where
  userAgent : String
  ipsScriptUrl : Option String
  ipsResponseText : String
  ipAddress : String
  acceptLanguage : String
deriving DecidableEq, Repr

structure KasadaPayloadResult where
  headers : List (String × String)
  payload : String
deriving DecidableEq, Repr

/-- The header-replacement loop of `handleTlRequest`: an oracle header
overwrites the outgoing header of the same lowercased name only when the
original request's value at that name is truthy; everything else is left
as spread from the original headers. -/
def mutateHeadersGo (originalHeaders : List (String × String)) :
    List (String × String) → List (String × String) → List (String × String)
  | modified, [] => modified
  | modified, nv :: rest =>
    mutateHeadersGo originalHeaders
      (if truthyOpt (lookupJs (toLowerJs nv.1) originalHeaders) then
        assocSet modified (toLowerJs nv.1) nv.2
      else modified)
      rest

def mutateHeaders (originalHeaders : List (String × String))
    (oracleHeaders : List (String × String)) : List (String × String) :=
  mutateHeadersGo originalHeaders originalHeaders oracleHeaders

/-- Outcome of a routed TL POST. -/
inductive TlOutcome where
  /-- `shouldInterceptTlRequest` was false: plain `route.continue()`. -/
  | notIntercepted
  /-- Still suspended on `await this.ipsScriptPromise`. -/
  | waiting (originalHeaders : List (String × String))
  /-- Missing IPS body: forwarded unmodified. -/
  | continueOriginal
  /-- `route.continue({ headers, postData })`. -/
  | mutated (input : KasadaPayloadInput) (headers : List (String × String))
      (body : List Nat)
deriving DecidableEq, Repr

/-- The part of `handleTlRequest` after the gate: fail open when the
cached IPS body is falsy, otherwise mutate headers and body from the
oracle result. -/
def completeTl (oracle : KasadaPayloadInput → KasadaPayloadResult)
    (pageUserAgent : String) (st : State)
    (originalHeaders : List (String × String)) : State × TlOutcome :=
  if !(truthyOpt st.ipsResponseText) then (st, .continueOriginal)
  else
    let ua := if truthyStr st.userAgent then st.userAgent else pageUserAgent
    let input : KasadaPayloadInput :=
      { userAgent := ua
        ipsScriptUrl := st.ipsScriptUrl
        ipsResponseText := st.ipsResponseText.getD ""
        ipAddress := st.ipAddress
        acceptLanguage := st.acceptLanguage }
    let result := oracle input
    ({ st with userAgent := ua },
      .mutated input (mutateHeaders originalHeaders result.headers)
        (base64Decode result.payload))

/-! ### Trace semantics

Events are processed in browser-delivery order; a TL POST arriving before
the gate is satisfied suspends (`waiting`) and is completed when the gate
resolves, reading the capture state current at that moment. -/

inductive KEvent where
  /-- A completed GET response (fed to `handleIpsScriptResponse`). -/
  | response (url : String) (body : String)
  /-- A request caught by the TL route. -/
  | tlPost (url : String) (method : String)
      (originalHeaders : List (String × String))
deriving Repr

/-- Complete every still-waiting TL POST, threading the state. -/
def flushWaiting (oracle : KasadaPayloadInput → KasadaPayloadResult)
    (pageUserAgent : String) (st : State) :
    List TlOutcome → State × List TlOutcome
  | [] => (st, [])
  | .waiting h :: rest =>
    let (st', o) := completeTl oracle pageUserAgent st h
    let (st'', rest') := flushWaiting oracle pageUserAgent st' rest
    (st'', o :: rest')
  | o :: rest =>
    let (st'', rest') := flushWaiting oracle pageUserAgent st rest
    (st'', o :: rest')

/-- One event step over (state, outcomes of TL events so far). -/
def kasadaStep (oracle : KasadaPayloadInput → KasadaPayloadResult)
    (pageUserAgent : String) :
    State × List TlOutcome → KEvent → State × List TlOutcome
  | (st, outs), .response url body =>
    if ipsScriptPattern url then
      let st' := { st with ipsScriptUrl := some url, ipsResponseText := some body,
                           gateSatisfied := true }
      if st.gateSatisfied then (st', outs)
      else flushWaiting oracle pageUserAgent st' outs
    else (st, outs)
  | (st, outs), .tlPost url method headers =>
    if shouldInterceptTlRequest url method then
      if st.gateSatisfied then
        let (st', o) := completeTl oracle pageUserAgent st headers
        (st', outs ++ [o])
      else (st, outs ++ [.waiting headers])
    else (st, outs ++ [.notIntercepted])

/-- Process a trace of events. -/
def runKasada (oracle : KasadaPayloadInput → KasadaPayloadResult)
    (pageUserAgent : String) (st : State) (events : List KEvent) :
    State × List TlOutcome :=
  events.foldl (kasadaStep oracle pageUserAgent) (st, [])

/-- Whether an event is a matching IPS script observation. -/
def isIpsObservation : KEvent → Bool
  | .response url _ => ipsScriptPattern url
  | _ => false

end Kasada

/-! ## The Gate primitive

The handlers realize the spec's Gate as a JS promise created at
construction and at `reset`, resolved at most effectively once, awaited by
any number of waiters.  The promise is modelled by its observable state: a
satisfaction flag plus the queue of waiters suspended on it; the
notification log records each time a waiter observes satisfaction. -/

namespace GateModel

structure Gate where
  satisfied : Bool
  pending : List Nat
deriving DecidableEq, Repr

/-- The gate made by `new Promise((resolve) => ...)` at construction and
at `reset`. -/
def Gate.fresh : Gate := { satisfied := false, pending := [] }

inductive GateOp where
  /-- `await gatePromise` by waiter `w`. -/
  | wait (w : Nat)
  /-- `resolve()` (guarded by `if (this.resolve...)` in the handlers). -/
  | satisfy
deriving DecidableEq, Repr

/-- One gate operation over (gate, notification log).  A waiter arriving
after satisfaction observes it immediately; `satisfy` on an unsatisfied
gate wakes every pending waiter exactly once; `satisfy` on a satisfied
gate is a no-op (a settled promise cannot re-fire). -/
def gateStep : Gate × List Nat → GateOp → Gate × List Nat
  | (g, log), .wait w =>
    if g.satisfied then (g, log ++ [w])
    else ({ g with pending := g.pending ++ [w] }, log)
  | (g, log), .satisfy =>
    if g.satisfied then (g, log)
    else ({ satisfied := true, pending := [] }, log ++ g.pending)

/-- Run a list of gate operations from a gate and an empty log. -/
def gateRun (g : Gate) (ops : List GateOp) : Gate × List Nat :=
  ops.foldl gateStep (g, [])

/-- The waiters of a list of operations. -/
def opWaiters (ops : List GateOp) : List Nat :=
  ops.filterMap fun o => match o with | .wait w => some w | .satisfy => none

end GateModel

/-! ## DataDome controller, slider-only variant (hardcoded parent URL) -/

namespace DataDomeSlider

structure CaptchaCapture where
  puzzleImageUrl : Option String
  pieceImageUrl : Option String
  puzzleImageBase64 : Option String
  pieceImageBase64 : Option String
  captchaPageUrl : Option String
  deviceCheckLink : Option String
deriving DecidableEq, Repr

def emptyCapture : CaptchaCapture :=
  { puzzleImageUrl := none, pieceImageUrl := none, puzzleImageBase64 := none,
    pieceImageBase64 := none, captchaPageUrl := none, deviceCheckLink := none }

/-- Mutable fields; `imagesResolved` models `imagesPromise`. -/
structure State where
  captchaCapture : CaptchaCapture
  isProcessing : Bool
  imagesResolved : Bool
  isHeaderInterceptionEnabled : Bool
  userAgent : String
  ipAddress : String
  acceptLanguage : String
deriving DecidableEq, Repr

/-- `SliderInput` constructor arguments, in source order. -/
structure SliderInput where
  userAgent : String
  captchaPageUrl : Option String
  pageHtml : String
  puzzleImageBase64 : Option String
  pieceImageBase64 : Option String
  parentUrl : String
  ipAddress : String
  acceptLanguage : String
deriving DecidableEq, Repr

structure SliderResult where
  payload : String
  headers : List (String × String)
deriving DecidableEq, Repr

inductive CaptchaOutcome where
  /-- Dropped by the non-reentrancy guard. -/
  | skippedReentrant
  /-- Suspended on `await this.imagesPromise`. -/
  | held
  /-- No page or frame hosting the captcha was found. -/
  | noIframe
  /-- Oracle call failed (falsy result). -/
  | oracleFailed (input : SliderInput)
  /-- Solution executed: device-check link issued inside the iframe and the
  oracle headers installed as the page's extra headers. -/
  | solved (input : SliderInput) (deviceCheckLink : String)
      (extraHeaders : List (String × String))
deriving DecidableEq, Repr

/-- `handleCaptchaPageResponse` of the slider-only variant.  The parent
URL handed to the oracle is the hardcoded placeholder
`https://tickets.manutd.com/` (marked `TODO: proper parent url input` in
the source); the navigation URL of the captcha iframe (modelled by
`iframeParentUrl` when an iframe is found) is not consulted. -/
def handleCaptchaPageResponse (oracle : SliderInput → Option SliderResult)
    (st : State) (responseUrl responseText pageUserAgent : String)
    (iframeParentUrl : Option String) : State × CaptchaOutcome :=
  if st.isProcessing then (st, .skippedReentrant)
  else
    let st₁ := { st with
      captchaCapture := { st.captchaCapture with captchaPageUrl := some responseUrl } }
    if !st₁.imagesResolved then ({ st₁ with isProcessing := true }, .held)
    else
      match iframeParentUrl with
      | none => (st₁, .noIframe)
      | some _ =>
        let ua := if truthyStr st₁.userAgent then st₁.userAgent else pageUserAgent
        let input : SliderInput :=
          { userAgent := ua
            captchaPageUrl := st₁.captchaCapture.captchaPageUrl
            pageHtml := responseText
            puzzleImageBase64 := st₁.captchaCapture.puzzleImageBase64
            pieceImageBase64 := st₁.captchaCapture.pieceImageBase64
            parentUrl := "https://tickets.manutd.com/"
            ipAddress := st₁.ipAddress
            acceptLanguage := st₁.acceptLanguage }
        match oracle input with
        | none => ({ st₁ with userAgent := ua }, .oracleFailed input)
        | some sliderResult =>
          ({ st₁ with
              userAgent := ua
              captchaCapture :=
                { st₁.captchaCapture with deviceCheckLink := some sliderResult.payload } },
            .solved input sliderResult.payload sliderResult.headers)

structure Status where
  puzzleImageUrl : Option String
  pieceImageUrl : Option String
  puzzleImageBase64 : Option String
  pieceImageBase64 : Option String
  captchaPageUrl : Option String
  deviceCheckLink : Option String
  isProcessing : Bool
  isHeaderInterceptionEnabled : Bool
deriving DecidableEq, Repr

def getStatus (st : State) : Status :=
  { puzzleImageUrl := st.captchaCapture.puzzleImageUrl
    pieceImageUrl := st.captchaCapture.pieceImageUrl
    puzzleImageBase64 := st.captchaCapture.puzzleImageBase64
    pieceImageBase64 := st.captchaCapture.pieceImageBase64
    captchaPageUrl := st.captchaCapture.captchaPageUrl
    deviceCheckLink := st.captchaCapture.deviceCheckLink
    isProcessing := st.isProcessing
    isHeaderInterceptionEnabled := st.isHeaderInterceptionEnabled }

def reset (st : State) : State :=
  { st with
    captchaCapture := emptyCapture
    isProcessing := false
    isHeaderInterceptionEnabled := false
    imagesResolved := false }

end DataDomeSlider

/-! ## DataDome controller, slider + interstitial variant -/

namespace DataDome

structure CaptchaCapture where
  puzzleImageUrl : Option String
  pieceImageUrl : Option String
  puzzleImageBase64 : Option String
  pieceImageBase64 : Option String
  captchaPageUrl : Option String
  deviceCheckLink : Option String
  interstitialPageUrl : Option String
  interstitialPageText : Option String
deriving DecidableEq, Repr

def emptyCapture : CaptchaCapture :=
  { puzzleImageUrl := none, pieceImageUrl := none, puzzleImageBase64 := none,
    pieceImageBase64 := none, captchaPageUrl := none, deviceCheckLink := none,
    interstitialPageUrl := none, interstitialPageText := none }

structure State where
  captchaCapture : CaptchaCapture
  isProcessing : Bool
  imagesResolved : Bool
  userAgent : String
  ipAddress : String
  acceptLanguage : String
deriving DecidableEq, Repr

/-- `SliderInput` constructor arguments, in source order. -/
structure SliderInput where
  userAgent : String
  captchaPageUrl : Option String
  pageHtml : String
  puzzleImageBase64 : Option String
  pieceImageBase64 : Option String
  parentUrl : String
  ipAddress : String
  acceptLanguage : String
deriving DecidableEq, Repr

structure SliderResult where
  payload : String
  headers : List (String × String)
deriving DecidableEq, Repr

inductive CaptchaOutcome where
  | skippedReentrant
  | held
  | noIframe
  | oracleFailed (input : SliderInput)
  | solved (input : SliderInput) (deviceCheckLink : String)
      (extraHeaders : List (String × String))
deriving DecidableEq, Repr

/-- `handleCaptchaPageResponse` of the slider + interstitial variant: the
parent URL handed to the oracle is the result of evaluating
`(window.location != window.parent.location) ? document.referrer :
document.location.href` inside the captcha iframe itself, modelled by
`iframeParentUrl` (absent when no captcha frame is found). -/
def handleCaptchaPageResponse (oracle : SliderInput → Option SliderResult)
    (st : State) (responseUrl responseText pageUserAgent : String)
    (iframeParentUrl : Option String) : State × CaptchaOutcome :=
  if st.isProcessing then (st, .skippedReentrant)
  else
    let st₁ := { st with
      captchaCapture := { st.captchaCapture with captchaPageUrl := some responseUrl } }
    if !st₁.imagesResolved then ({ st₁ with isProcessing := true }, .held)
    else
      match iframeParentUrl with
      | none => (st₁, .noIframe)
      | some parentUrl =>
        let ua := if truthyStr st₁.userAgent then st₁.userAgent else pageUserAgent
        let input : SliderInput :=
          { userAgent := ua
            captchaPageUrl := st₁.captchaCapture.captchaPageUrl
            pageHtml := responseText
            puzzleImageBase64 := st₁.captchaCapture.puzzleImageBase64
            pieceImageBase64 := st₁.captchaCapture.pieceImageBase64
            parentUrl := parentUrl
            ipAddress := st₁.ipAddress
            acceptLanguage := st₁.acceptLanguage }
        match oracle input with
        | none => ({ st₁ with userAgent := ua }, .oracleFailed input)
        | some sliderResult =>
          ({ st₁ with
              userAgent := ua
              captchaCapture :=
                { st₁.captchaCapture with deviceCheckLink := some sliderResult.payload } },
            .solved input sliderResult.payload sliderResult.headers)

structure Status where
  puzzleImageUrl : Option String
  pieceImageUrl : Option String
  puzzleImageBase64 : Option String
  pieceImageBase64 : Option String
  captchaPageUrl : Option String
  deviceCheckLink : Option String
  interstitialPageUrl : Option String
  interstitialPageText : Option String
  isProcessing : Bool
deriving DecidableEq, Repr

def getStatus (st : State) : Status :=
  { puzzleImageUrl := st.captchaCapture.puzzleImageUrl
    pieceImageUrl := st.captchaCapture.pieceImageUrl
    puzzleImageBase64 := st.captchaCapture.puzzleImageBase64
    pieceImageBase64 := st.captchaCapture.pieceImageBase64
    captchaPageUrl := st.captchaCapture.captchaPageUrl
    deviceCheckLink := st.captchaCapture.deviceCheckLink
    interstitialPageUrl := st.captchaCapture.interstitialPageUrl
    interstitialPageText := st.captchaCapture.interstitialPageText
    isProcessing := st.isProcessing }

def reset (st : State) : State :=
  { st with
    captchaCapture := emptyCapture
    isProcessing := false
    imagesResolved := false }

end DataDome

/-- Parent URL recorded in the oracle input of a slider-variant captcha
outcome, when the oracle was reached. -/
def DataDomeSlider.parentUrlOf : DataDomeSlider.CaptchaOutcome → Option String
  | .oracleFailed i => some i.parentUrl
  | .solved i _ _ => some i.parentUrl
  | _ => none

/-- Parent URL recorded in the oracle input of a slider + interstitial
variant captcha outcome, when the oracle was reached. -/
def DataDome.parentUrlOf : DataDome.CaptchaOutcome → Option String
  | .oracleFailed i => some i.parentUrl
  | .solved i _ _ => some i.parentUrl
  | _ => none

/-! ## Concrete states and requests used to instantiate the theorems -/

def exIncMapping : List (String × String) := [("/resource", "tenantA")]

def exIncStaticState : IncapsulaStatic.State :=
  { scriptPathToSitekey := exIncMapping, interceptedPaths := [],
    activeSitekeys := [], scriptPathToScriptUrl := [], userAgent := "UA",
    ipAddress := "1.2.3.4", acceptLanguage := "en-US" }

def exIncUrl : Url :=
  { scheme := "https", host := "x.com", pathname := "/resource/y",
    query := [("d", "excom")] }

/-- A JSON POST whose body starts with a quote character. -/
def exIncReqQuoteJson : IncapsulaStatic.Request :=
  { url := exIncUrl, method := "POST", contentType := some "application/json",
    postData := some "\"abc" }

def akFresh : Akamai.State :=
  { scriptCapture := Akamai.emptyCapture, sessionContext := "", sbsdIndex := 0,
    dynamicValuesResolved := false, userAgent := "UA", ipAddress := "1.2.3.4",
    acceptLanguage := "en-US" }

def exSbsdUuid : String := "12345678-1234-1234-1234-123456789012"

/-- SBSD script URL whose own query carries a time-refresh parameter next
to the UUID parameter. -/
def exSbsdScriptUrlT : Url :=
  { scheme := "https", host := "a.com", pathname := "/s.js",
    query := [("t", "1"), ("v", exSbsdUuid)] }

/-- The canonical SBSD endpoint stored for `exSbsdScriptUrlT` (the `v`
parameter stripped), as a POST target. -/
def exSbsdPostUrlT : Url :=
  { scheme := "https", host := "a.com", pathname := "/s.js", query := [("t", "1")] }

/-- SBSD script URL with only the UUID parameter. -/
def exSbsdScriptUrl : Url :=
  { scheme := "https", host := "a.com", pathname := "/s.js",
    query := [("v", exSbsdUuid)] }

/-- The canonical SBSD endpoint stored for `exSbsdScriptUrl`. -/
def exSbsdPostUrl : Url :=
  { scheme := "https", host := "a.com", pathname := "/s.js", query := [] }

def exSbsdCookies : List (String × String) := [("sbsd_o", "C")]

def kasFresh : Kasada.State := Kasada.freshState "UA" "1.2.3.4" "en-US"

def exIpsUrl : String := "https://h.com/" ++ Kasada.kasadaIdent ++ "/ips.js"

def exTlUrl : String := "https://h.com/" ++ Kasada.kasadaIdent ++ "/tl"

/-- A Kasada oracle returning no headers and an empty payload. -/
def exKasadaOracle : Kasada.KasadaPayloadInput → Kasada.KasadaPayloadResult :=
  fun _ => { headers := [], payload := "" }

/-- A slider-variant DataDome state with both images captured and the gate
satisfied. -/
def exDdSliderReady : DataDomeSlider.State :=
  { captchaCapture :=
      { DataDomeSlider.emptyCapture with
        puzzleImageBase64 := some "P", pieceImageBase64 := some "Q" },
    isProcessing := false, imagesResolved := true,
    isHeaderInterceptionEnabled := false, userAgent := "UA",
    ipAddress := "1.2.3.4", acceptLanguage := "en-US" }

/-- A slider + interstitial DataDome state with both images captured and
the gate satisfied. -/
def exDdReady : DataDome.State :=
  { captchaCapture :=
      { DataDome.emptyCapture with
        puzzleImageBase64 := some "P", pieceImageBase64 := some "Q" },
    isProcessing := false, imagesResolved := true, userAgent := "UA",
    ipAddress := "1.2.3.4", acceptLanguage := "en-US" }

def exCaptchaUrl : String := "https://geo.captcha-delivery.com/captcha/?initialCid=x"

def exIncDynState : IncapsulaDyn.State :=
  { detectedReese84Paths := ["/resource"], scriptPathToScriptUrl := [],
    scriptPathToScriptContent := [], interceptedPaths := [], detectedScripts := [],
    userAgent := "UA", ipAddress := "1.2.3.4", acceptLanguage := "en-US" }

/-- A mapped-path JSON POST whose body does not start with a quote. -/
def exIncReqJson : IncapsulaStatic.Request :=
  { url := exIncUrl, method := "POST", contentType := some "application/json",
    postData := some "payload" }

/-- The identical POST with content type `text/plain`. -/
def exIncReqPlain : IncapsulaStatic.Request :=
  { url := exIncUrl, method := "POST", contentType := some "text/plain",
    postData := some "payload" }

/-- Akamai state right after capturing `exSbsdScriptUrl`. -/
def akCaptured : Akamai.State :=
  Akamai.handleSbsdScriptResponse akFresh exSbsdScriptUrl "SCRIPT"

/-- Kasada state right after observing the IPS script with body `X`. -/
def kasObserved : Kasada.State :=
  Kasada.handleIpsScriptResponse kasFresh exIpsUrl "X"

/-! # Theorems -/

/-- C9: calling `reset()` twice in a row yields the same `getStatus()`
snapshot after each call for every handler, with every capture slot
empty or null, the counters zero, and the gate replaced by a fresh
unsatisfied one. -/
theorem reset_idempotent_all_handlers :
    ∀ (a : Akamai.State) (d : DataDome.State) (d₂ : DataDomeSlider.State)
      (i : IncapsulaStatic.State) (j : IncapsulaDyn.State) (k : Kasada.State),
      (Akamai.getStatus (Akamai.reset a) =
          Akamai.getStatus (Akamai.reset (Akamai.reset a)) ∧
        (Akamai.reset a).scriptCapture = Akamai.emptyCapture ∧
        (Akamai.reset a).sbsdIndex = 0 ∧
        (Akamai.reset a).sessionContext = "" ∧
        (Akamai.reset a).dynamicValuesResolved = false) ∧
      (DataDome.getStatus (DataDome.reset d) =
          DataDome.getStatus (DataDome.reset (DataDome.reset d)) ∧
        (DataDome.reset d).captchaCapture = DataDome.emptyCapture ∧
        (DataDome.reset d).isProcessing = false ∧
        (DataDome.reset d).imagesResolved = false) ∧
      (DataDomeSlider.getStatus (DataDomeSlider.reset d₂) =
          DataDomeSlider.getStatus (DataDomeSlider.reset (DataDomeSlider.reset d₂)) ∧
        (DataDomeSlider.reset d₂).captchaCapture = DataDomeSlider.emptyCapture ∧
        (DataDomeSlider.reset d₂).imagesResolved = false) ∧
      (IncapsulaStatic.getStatus (IncapsulaStatic.reset i) =
          IncapsulaStatic.getStatus (IncapsulaStatic.reset (IncapsulaStatic.reset i)) ∧
        (IncapsulaStatic.reset i).interceptedPaths = [] ∧
        (IncapsulaStatic.reset i).activeSitekeys = [] ∧
        (IncapsulaStatic.reset i).scriptPathToScriptUrl = []) ∧
      (IncapsulaDyn.getStatus (IncapsulaDyn.reset j) =
          IncapsulaDyn.getStatus (IncapsulaDyn.reset (IncapsulaDyn.reset j)) ∧
        (IncapsulaDyn.reset j).interceptedPaths = [] ∧
        (IncapsulaDyn.reset j).detectedReese84Paths = []) ∧
      (Kasada.getStatus (Kasada.reset k) =
          Kasada.getStatus (Kasada.reset (Kasada.reset k)) ∧
        (Kasada.reset k).ipsScriptUrl = none ∧
        (Kasada.reset k).ipsResponseText = none ∧
        (Kasada.reset k).gateSatisfied = false) := by
  intro a d d₂ i j k
  exact ⟨⟨rfl, rfl, rfl, rfl, rfl⟩, ⟨rfl, rfl, rfl, rfl⟩, ⟨rfl, rfl, rfl⟩,
    ⟨rfl, rfl, rfl, rfl⟩, ⟨rfl, rfl, rfl⟩, ⟨rfl, rfl, rfl, rfl⟩⟩

/-- C10: in the static Incapsula variant, `reset()` clears the
intercepted-paths ledger, the active-sitekey record and the captured
script URLs, leaves the configured sitekey map unchanged, and therefore
`findMatchingScriptPath` answers identically before and after `reset()`
on every URL. -/
theorem incapsula_static_reset_frame :
    ∀ (st : IncapsulaStatic.State) (u : Url),
      IncapsulaStatic.findMatchingScriptPath (IncapsulaStatic.reset st) u =
        IncapsulaStatic.findMatchingScriptPath st u ∧
      (IncapsulaStatic.reset st).interceptedPaths = [] ∧
      (IncapsulaStatic.reset st).activeSitekeys = [] ∧
      (IncapsulaStatic.reset st).scriptPathToScriptUrl = [] ∧
      (IncapsulaStatic.reset st).scriptPathToSitekey = st.scriptPathToSitekey := by
  intro st u
  exact ⟨rfl, rfl, rfl, rfl, rfl⟩

/-- C7: evaluated at a captcha page whose iframe reports parent URL
`https://example.com/page`, the slider-only DataDome variant passes the
hardcoded placeholder `https://tickets.manutd.com/` to the oracle as the
parent URL (its source marks this `TODO: proper parent url input`),
whereas the slider + interstitial variant passes the extracted iframe
navigation URL as the claim states. -/
theorem datadome_slider_parent_url_hardcoded :
    DataDomeSlider.parentUrlOf
        (DataDomeSlider.handleCaptchaPageResponse (fun _ => none) exDdSliderReady
          exCaptchaUrl "page-html" "UA" (some "https://example.com/page")).2 =
      some "https://tickets.manutd.com/" ∧
    DataDome.parentUrlOf
        (DataDome.handleCaptchaPageResponse (fun _ => none) exDdReady
          exCaptchaUrl "page-html" "UA" (some "https://example.com/page")).2 =
      some "https://example.com/page" ∧
    ("https://tickets.manutd.com/" : String) ≠ "https://example.com/page" := by
  exact ⟨rfl, rfl, by decide⟩

/-- C1 (counterexample): from a fresh SBSD capture whose canonical
endpoint carries a time-refresh parameter, one successfully mutated POST
with the `t` parameter observes index 0 yet the persisted counter
advances to 1, refuting that the increment is not persisted. -/
theorem akamai_sbsd_index_claim_counterexample :
    (Akamai.runSbsd (fun _ => "R") "https://a.com/" "UA" akFresh
        [Akamai.SbsdEvent.scriptResponse exSbsdScriptUrlT "SCRIPT",
         Akamai.SbsdEvent.post exSbsdPostUrlT exSbsdCookies]).1.sbsdIndex = 1 ∧
    Akamai.observedIndices
        (Akamai.runSbsd (fun _ => "R") "https://a.com/" "UA" akFresh
          [Akamai.SbsdEvent.scriptResponse exSbsdScriptUrlT "SCRIPT",
           Akamai.SbsdEvent.post exSbsdPostUrlT exSbsdCookies]).2 = [0] ∧
    exSbsdPostUrlT.searchParamsHas "t" = true ∧ (1 : Nat) ≠ 0 := by
  exact ⟨rfl, rfl, rfl, by decide⟩

/-- C2 (counterexample): in the static variant, a POST to a mapped path
with content type `application/json` whose body starts with the quote
character is still mutated (its body is replaced by the oracle result),
refuting that a quote-prefixed body is always forwarded unmodified. -/
theorem incapsula_static_quote_claim_counterexample :
    startsWithJs "\"abc" "\"" = true ∧
    exIncReqQuoteJson.postData = some "\"abc" ∧
    exIncReqQuoteJson.contentType = some "application/json" ∧
    (IncapsulaStatic.interceptStep (fun _ => "ORACLE") exIncStaticState
        "https://x.com/" "UA" exIncReqQuoteJson).2 =
      IncapsulaStatic.Outcome.continueWithBody "ORACLE" ∧
    IncapsulaStatic.Outcome.continueWithBody "ORACLE" ≠
      IncapsulaStatic.Outcome.continueOriginal := by
  exact ⟨rfl, rfl, rfl, rfl, by decide⟩

/-- C3 (counterexample): after exactly one matching IPS observation whose
body is the empty string, a subsequent intercepted TL POST is forwarded
unmodified rather than mutated, refuting that every subsequent TL POST is
mutated using the cached body. -/
theorem kasada_gating_claim_counterexample :
    Kasada.isIpsObservation (Kasada.KEvent.response exIpsUrl "") = true ∧
    (Kasada.runKasada exKasadaOracle "UA" kasFresh
        [Kasada.KEvent.response exIpsUrl "",
         Kasada.KEvent.tlPost exTlUrl "POST" []]).2 =
      [Kasada.TlOutcome.continueOriginal] := by
  exact ⟨rfl, rfl⟩

/-! ## Shared helper lemmas -/

theorem lookup_assocSet (l : List (String × String)) (k v n : String) :
    lookupJs n (assocSet l k v) = if k = n then some v else lookupJs n l := by
  induction l with
  | nil =>
    by_cases h : k = n <;> simp [assocSet, lookupJs, h]
  | cons kv t ih =>
    obtain ⟨k', v'⟩ := kv
    by_cases h1 : k' = k
    · subst h1
      by_cases h2 : k' = n <;> simp [assocSet, lookupJs, h2]
    · by_cases h2 : k' = n
      · subst h2
        have h3 : ¬k = k' := fun hh => h1 hh.symm
        simp [assocSet, lookupJs, h1, h3]
      · simp [assocSet, lookupJs, h1, h2, ih]

theorem leadsWith_append (p : List Char) :
    ∀ (s t : List Char), leadsWith p s = true → leadsWith p (s ++ t) = true := by
  induction p with
  | nil => intro s t _; simp [leadsWith]
  | cons c cs ih =>
    intro s t h
    cases s with
    | nil => simp [leadsWith] at h
    | cons d ds =>
      simp only [leadsWith, Bool.and_eq_true] at h ⊢
      exact ⟨h.1, ih ds t h.2⟩

theorem includesChs_of_leadsWith (p s : List Char) :
    leadsWith p s = true → includesChs p s = true := by
  intro h
  cases s with
  | nil => simpa [includesChs] using h
  | cons c t => simp [includesChs, h]

theorem includesChs_append_left (x : List Char) :
    ∀ (s p : List Char), includesChs p s = true → includesChs p (x ++ s) = true := by
  induction x with
  | nil => intro s p h; simpa using h
  | cons c x' ih =>
    intro s p h
    simp only [List.cons_append, includesChs, Bool.or_eq_true]
    exact Or.inr (ih s p h)

theorem strToList_append (a b : String) : (a ++ b).toList = a.toList ++ b.toList := by
  cases a with
  | mk la =>
    cases b with
    | mk lb => rfl

theorem includesJs_href_of_pathname_match (u : Url) (p : String)
    (h : startsWithJs u.pathname p = true) : includesJs u.href p = true := by
  unfold includesJs Url.href
  rw [strToList_append, strToList_append, strToList_append, List.append_assoc]
  exact includesChs_append_left _ _ _
    (includesChs_of_leadsWith _ _ (leadsWith_append _ _ _ h))

/-- C6: a POST to the captured sensor script URL is held until the
dynamic-values gate is satisfied; once satisfied, a missing `_abck` or
`bm_sz` cookie or missing parsed dynamic values forwards the request with
its original body unmodified, leaving the state untouched. -/
theorem akamai_sensor_fail_open :
    ∀ (oracle : Akamai.SensorInput → Akamai.SensorResult) (st : Akamai.State)
      (pageUrl pageUserAgent : String) (cookies : List (String × String)),
      (st.dynamicValuesResolved = false →
        Akamai.handleSensorRequest oracle st pageUrl pageUserAgent cookies =
          (st, Akamai.SensorOutcome.held)) ∧
      (st.dynamicValuesResolved = true →
        (Akamai.cookieValue cookies "_abck" = none ∨
          Akamai.cookieValue cookies "bm_sz" = none ∨
          st.scriptCapture.dynamicValues = none) →
        Akamai.handleSensorRequest oracle st pageUrl pageUserAgent cookies =
          (st, Akamai.SensorOutcome.continueOriginal)) := by
  intro oracle st pageUrl pageUserAgent cookies
  constructor
  · intro h
    simp [Akamai.handleSensorRequest, h]
  · intro h habs
    rcases habs with h1 | h1 | h1 <;>
      simp [Akamai.handleSensorRequest, h, h1, truthyOpt]

/-- C6 witness: the fail-open branches evaluated at the fresh Akamai state
with an empty cookie jar. -/
theorem akamai_sensor_fail_open_witness :
    Akamai.handleSensorRequest (fun _ => ⟨"p", "c"⟩) akFresh "https://a.com/" "UA" [] =
      (akFresh, Akamai.SensorOutcome.held) ∧
    Akamai.handleSensorRequest (fun _ => ⟨"p", "c"⟩)
        { akFresh with dynamicValuesResolved := true } "https://a.com/" "UA" [] =
      ({ akFresh with dynamicValuesResolved := true },
        Akamai.SensorOutcome.continueOriginal) :=
  ⟨(akamai_sensor_fail_open (fun _ => ⟨"p", "c"⟩) akFresh "https://a.com/" "UA" []).1 rfl,
    (akamai_sensor_fail_open (fun _ => ⟨"p", "c"⟩)
        { akFresh with dynamicValuesResolved := true } "https://a.com/" "UA" []).2 rfl
      (Or.inl rfl)⟩

/-- Notification count of a waiter over a run of gate operations: a
waiter that waits at most once is notified exactly once iff it waits and
the gate gets (or already was) satisfied. -/
theorem gateRun_count_aux :
    ∀ (ops : List GateModel.GateOp) (g : GateModel.Gate) (log : List Nat) (w : Nat),
      (g.satisfied = true → g.pending = []) →
      g.pending.count w + (GateModel.opWaiters ops).count w ≤ 1 →
      (ops.foldl GateModel.gateStep (g, log)).2.count w =
        log.count w +
          (if (w ∈ g.pending ∨ w ∈ GateModel.opWaiters ops) ∧
              (g.satisfied = true ∨ GateModel.GateOp.satisfy ∈ ops) then 1 else 0) := by
  intro ops
  induction ops with
  | nil =>
    intro g log w hclean hcount
    simp only [List.foldl_nil, GateModel.opWaiters, List.filterMap_nil, List.not_mem_nil,
      or_false, List.count_nil]
    by_cases hs : g.satisfied = true
    · simp [hclean hs, hs]
    · simp [hs]
  | cons op rest ih =>
    intro g log w hclean hcount
    cases op with
    | wait w' =>
      have hW : GateModel.opWaiters (GateModel.GateOp.wait w' :: rest) =
          w' :: GateModel.opWaiters rest := rfl
      rw [hW] at hcount
      by_cases hs : g.satisfied = true
      · have hpend := hclean hs
        have hstep : GateModel.gateStep (g, log) (GateModel.GateOp.wait w') =
            (g, log ++ [w']) := by
          simp [GateModel.gateStep, hs]
        have hc2 : g.pending.count w + (GateModel.opWaiters rest).count w ≤ 1 := by
          simp only [List.count_cons] at hcount
          omega
        rw [List.foldl_cons, hstep, ih g (log ++ [w']) w hclean hc2]
        rw [List.count_append, hW]
        simp only [hpend, List.not_mem_nil, false_or, List.mem_cons, hs, true_or, and_true,
          List.count_nil]
        have hsing : List.count w [w'] = if w' = w then 1 else 0 :=
          List.count_singleton' w w'
        by_cases hw : w' = w
        · subst hw
          have hz : w' ∉ GateModel.opWaiters rest := by
            rw [hpend] at hcount
            simp [List.count_cons] at hcount
            exact List.count_eq_zero.mp (by omega)
          simp [hsing, hz]
        · have hww : ¬w = w' := fun h => hw h.symm
          by_cases hr : w ∈ GateModel.opWaiters rest <;> simp [hsing, hw, hww, hr]
      · have hstep : GateModel.gateStep (g, log) (GateModel.GateOp.wait w') =
            ({ g with pending := g.pending ++ [w'] }, log) := by
          simp [GateModel.gateStep, hs]
        have hclean2 :
            ({ g with pending := g.pending ++ [w'] } : GateModel.Gate).satisfied = true →
            ({ g with pending := g.pending ++ [w'] } : GateModel.Gate).pending = [] :=
          fun h => absurd h hs
        have hc2 : (g.pending ++ [w']).count w + (GateModel.opWaiters rest).count w ≤ 1 := by
          simp only [List.count_append, List.count_cons, List.count_nil,
            List.count_singleton'] at hcount ⊢
          omega
        rw [List.foldl_cons, hstep, ih _ log w hclean2 hc2]
        have hmem : ((w ∈ g.pending ++ [w'] ∨ w ∈ GateModel.opWaiters rest) ∧
              (({ g with pending := g.pending ++ [w'] } : GateModel.Gate).satisfied = true ∨
                GateModel.GateOp.satisfy ∈ rest)) ↔
            ((w ∈ g.pending ∨ w ∈ GateModel.opWaiters (GateModel.GateOp.wait w' :: rest)) ∧
              (g.satisfied = true ∨
                GateModel.GateOp.satisfy ∈ GateModel.GateOp.wait w' :: rest)) := by
          rw [hW]
          simp only [List.mem_append, List.mem_cons, List.mem_singleton]
          constructor
          · rintro ⟨h1, h2⟩
            refine ⟨?_, ?_⟩
            · tauto
            · rcases h2 with h2 | h2
              · exact Or.inl h2
              · exact Or.inr (Or.inr h2)
          · rintro ⟨h1, h2⟩
            refine ⟨?_, ?_⟩
            · tauto
            · rcases h2 with h2 | h2 | h2
              · exact Or.inl h2
              · exact absurd h2 (by simp)
              · exact Or.inr h2
        rw [if_congr hmem rfl rfl]
    | satisfy =>
      have hW : GateModel.opWaiters (GateModel.GateOp.satisfy :: rest) =
          GateModel.opWaiters rest := rfl
      rw [hW] at hcount
      by_cases hs : g.satisfied = true
      · have hstep : GateModel.gateStep (g, log) GateModel.GateOp.satisfy = (g, log) := by
          simp [GateModel.gateStep, hs]
        rw [List.foldl_cons, hstep, ih g log w hclean hcount]
        rw [hW]
        simp [hs]
      · have hstep : GateModel.gateStep (g, log) GateModel.GateOp.satisfy =
            ({ satisfied := true, pending := [] }, log ++ g.pending) := by
          simp [GateModel.gateStep, hs]
        have hclean2 :
            ({ satisfied := true, pending := [] } : GateModel.Gate).satisfied = true →
            ({ satisfied := true, pending := [] } : GateModel.Gate).pending = [] :=
          fun _ => rfl
        have hc2 : (([] : List Nat)).count w + (GateModel.opWaiters rest).count w ≤ 1 := by
          simp only [List.count_nil, Nat.zero_add]
          omega
        rw [List.foldl_cons, hstep, ih _ _ w hclean2 hc2]
        rw [List.count_append, hW]
        simp only [List.not_mem_nil, false_or, hs, false_or, List.mem_cons,
          List.mem_singleton, true_or, or_true, and_true]
        by_cases hp : w ∈ g.pending
        · have h1 : 0 < g.pending.count w := List.count_pos_iff.mpr hp
          have hz : w ∉ GateModel.opWaiters rest :=
            List.count_eq_zero.mp (by omega)
          simp only [hp, hz, or_false, true_or, if_true, if_false,
            GateModel.GateOp.satisfy.sizeOf_spec]
          have hone : g.pending.count w = 1 := by omega
          simp [hz, hone, hp]
        · have hz : g.pending.count w = 0 := List.count_eq_zero.mpr hp
          by_cases hr : w ∈ GateModel.opWaiters rest <;> simp [hp, hz, hr]

/-- C4: a waiter arriving before or after satisfaction observes the gate
exactly once once satisfaction has occurred and never otherwise;
satisfying a satisfied gate changes neither the gate state nor any
waiter's notifications; and the fresh gate installed by `reset` is never
pre-satisfied. -/
theorem gate_semantics :
    (∀ (ops : List GateModel.GateOp) (w : Nat),
        (GateModel.opWaiters ops).count w ≤ 1 →
        (GateModel.gateRun GateModel.Gate.fresh ops).2.count w =
          if w ∈ GateModel.opWaiters ops ∧ GateModel.GateOp.satisfy ∈ ops then 1
          else 0) ∧
    (∀ (g : GateModel.Gate) (log : List Nat),
        GateModel.gateStep (GateModel.gateStep (g, log) GateModel.GateOp.satisfy)
            GateModel.GateOp.satisfy =
          GateModel.gateStep (g, log) GateModel.GateOp.satisfy) ∧
    GateModel.Gate.fresh.satisfied = false := by
  refine ⟨?_, ?_, rfl⟩
  · intro ops w hcount
    have h := gateRun_count_aux ops GateModel.Gate.fresh [] w (fun _ => rfl)
      (by simpa [GateModel.Gate.fresh] using hcount)
    simpa [GateModel.gateRun, GateModel.Gate.fresh] using h
  · intro g log
    by_cases hs : g.satisfied = true <;> simp [GateModel.gateStep, hs]

/-- C4 witness: over the operation sequence wait-then-satisfy from a
fresh gate, waiter 0 is notified exactly once. -/
theorem gate_semantics_witness :
    (GateModel.gateRun GateModel.Gate.fresh
        [GateModel.GateOp.wait 0, GateModel.GateOp.satisfy]).2.count 0 = 1 := by
  have h := gate_semantics.1 [GateModel.GateOp.wait 0, GateModel.GateOp.satisfy] 0
    (by decide)
  rw [if_pos (by decide)] at h
  exact h

theorem findKeyLoop_isSome (pn : String) :
    ∀ keys : List String,
      (IncapsulaStatic.findKeyLoop pn keys).isSome = true ↔
        ∃ p ∈ keys, startsWithJs pn p = true := by
  intro keys
  induction keys with
  | nil => simp [IncapsulaStatic.findKeyLoop]
  | cons k rest ih =>
    by_cases h : startsWithJs pn k = true
    · simp only [IncapsulaStatic.findKeyLoop, h, if_true, Option.isSome_some, true_iff]
      exact ⟨k, by simp, h⟩
    · have hb : startsWithJs pn k = false := by
        cases hv : startsWithJs pn k
        · rfl
        · exact absurd hv h
      simp only [IncapsulaStatic.findKeyLoop, hb, Bool.false_eq_true, if_false, ih,
        List.mem_cons]
      constructor
      · rintro ⟨p, hp, hs⟩
        exact ⟨p, Or.inr hp, hs⟩
      · rintro ⟨p, hp | hp, hs⟩
        · subst hp; exact absurd hs h
        · exact ⟨p, hp, hs⟩

theorem findKeyLoop_eq_some (pn : String) :
    ∀ (keys : List String) (p : String),
      IncapsulaStatic.findKeyLoop pn keys = some p →
      startsWithJs pn p = true ∧
        ∃ l₁ l₂, keys = l₁ ++ p :: l₂ ∧ ∀ q ∈ l₁, startsWithJs pn q = false := by
  intro keys
  induction keys with
  | nil => intro p h; simp [IncapsulaStatic.findKeyLoop] at h
  | cons k rest ih =>
    intro p h
    by_cases hk : startsWithJs pn k = true
    · simp only [IncapsulaStatic.findKeyLoop, hk, if_true, Option.some.injEq] at h
      subst h
      exact ⟨hk, [], rest, rfl, by intro q hq; simp at hq⟩
    · have hb : startsWithJs pn k = false := by
        cases hv : startsWithJs pn k
        · rfl
        · exact absurd hv hk
      simp only [IncapsulaStatic.findKeyLoop, hb, Bool.false_eq_true, if_false] at h
      obtain ⟨h1, l₁, l₂, heq, hall⟩ := ih p h
      refine ⟨h1, k :: l₁, l₂, by rw [heq]; rfl, ?_⟩
      intro q hq
      rcases List.mem_cons.mp hq with hq | hq
      · subst hq; exact hb
      · exact hall q hq

theorem findKeyLoop_first (pn : String) :
    ∀ (l₁ : List String) (p : String) (l₂ : List String),
      startsWithJs pn p = true → (∀ q ∈ l₁, startsWithJs pn q = false) →
      IncapsulaStatic.findKeyLoop pn (l₁ ++ p :: l₂) = some p := by
  intro l₁
  induction l₁ with
  | nil => intro p l₂ hp _; simp [IncapsulaStatic.findKeyLoop, hp]
  | cons q l₁' ih =>
    intro p l₂ hp hall
    have hq : startsWithJs pn q = false := hall q (by simp)
    simp only [List.cons_append, IncapsulaStatic.findKeyLoop, hq, Bool.false_eq_true,
      if_false]
    exact ih p l₂ hp (fun r hr => hall r (by simp [hr]))

theorem findKeyLoop_dyn_eq (pn : String) :
    ∀ keys, IncapsulaDyn.findKeyLoop pn keys = IncapsulaStatic.findKeyLoop pn keys := by
  intro keys
  induction keys with
  | nil => rfl
  | cons k rest ih =>
    by_cases h : startsWithJs pn k = true <;>
      simp [IncapsulaDyn.findKeyLoop, IncapsulaStatic.findKeyLoop, h, ih]

/-- C5: in both Incapsula variants, `findMatchingScriptPath` returns some
registered path iff some registered path leads the URL's parsed pathname;
a returned path does lead the pathname and is the first such entry in
insertion order; conversely the first matching entry is returned; and the
result ignores the query string entirely. -/
theorem incapsula_find_matching_script_path_spec :
    ∀ (st : IncapsulaStatic.State) (stD : IncapsulaDyn.State) (u : Url),
      ((IncapsulaStatic.findMatchingScriptPath st u).isSome = true ↔
        ∃ p ∈ st.scriptPathToSitekey.map Prod.fst, startsWithJs u.pathname p = true) ∧
      (∀ p, IncapsulaStatic.findMatchingScriptPath st u = some p →
        startsWithJs u.pathname p = true ∧
        ∃ l₁ l₂, st.scriptPathToSitekey.map Prod.fst = l₁ ++ p :: l₂ ∧
          ∀ q ∈ l₁, startsWithJs u.pathname q = false) ∧
      (∀ p l₁ l₂, st.scriptPathToSitekey.map Prod.fst = l₁ ++ p :: l₂ →
        startsWithJs u.pathname p = true →
        (∀ q ∈ l₁, startsWithJs u.pathname q = false) →
        IncapsulaStatic.findMatchingScriptPath st u = some p) ∧
      (∀ q, IncapsulaStatic.findMatchingScriptPath st { u with query := q } =
        IncapsulaStatic.findMatchingScriptPath st u) ∧
      ((IncapsulaDyn.findMatchingScriptPath stD u).isSome = true ↔
        ∃ p ∈ stD.detectedReese84Paths, startsWithJs u.pathname p = true) ∧
      (∀ p, IncapsulaDyn.findMatchingScriptPath stD u = some p →
        startsWithJs u.pathname p = true ∧
        ∃ l₁ l₂, stD.detectedReese84Paths = l₁ ++ p :: l₂ ∧
          ∀ q ∈ l₁, startsWithJs u.pathname q = false) ∧
      (∀ p l₁ l₂, stD.detectedReese84Paths = l₁ ++ p :: l₂ →
        startsWithJs u.pathname p = true →
        (∀ q ∈ l₁, startsWithJs u.pathname q = false) →
        IncapsulaDyn.findMatchingScriptPath stD u = some p) ∧
      (∀ q, IncapsulaDyn.findMatchingScriptPath stD { u with query := q } =
        IncapsulaDyn.findMatchingScriptPath stD u) := by
  intro st stD u
  refine ⟨findKeyLoop_isSome _ _, ?_, ?_, fun q => rfl, ?_, ?_, ?_, fun q => rfl⟩
  · intro p h
    exact findKeyLoop_eq_some _ _ p h
  · intro p l₁ l₂ he hp hall
    unfold IncapsulaStatic.findMatchingScriptPath
    rw [he]
    exact findKeyLoop_first _ _ _ _ hp hall
  · unfold IncapsulaDyn.findMatchingScriptPath
    rw [findKeyLoop_dyn_eq]
    exact findKeyLoop_isSome _ _
  · intro p h
    unfold IncapsulaDyn.findMatchingScriptPath at h
    rw [findKeyLoop_dyn_eq] at h
    exact findKeyLoop_eq_some _ _ p h
  · intro p l₁ l₂ he hp hall
    unfold IncapsulaDyn.findMatchingScriptPath
    rw [findKeyLoop_dyn_eq, he]
    exact findKeyLoop_first _ _ _ _ hp hall

/-- C5 witness: on the configured map `/resource ↦ tenantA`, the URL
`https://x.com/resource/y?d=excom` resolves to path `/resource`. -/
theorem incapsula_find_matching_script_path_spec_witness :
    IncapsulaStatic.findMatchingScriptPath exIncStaticState exIncUrl = some "/resource" :=
  (incapsula_find_matching_script_path_spec exIncStaticState exIncDynState exIncUrl).2.2.1
    "/resource" [] [] rfl rfl (fun q hq => absurd hq (List.not_mem_nil q))

theorem lookup_mutateHeadersGo_untouched :
    ∀ (oh orig acc : List (String × String)) (n : String),
      (∀ kv ∈ oh, ¬(toLowerJs kv.1 = n ∧
        truthyOpt (lookupJs (toLowerJs kv.1) orig) = true)) →
      lookupJs n (Kasada.mutateHeadersGo orig acc oh) = lookupJs n acc := by
  intro oh
  induction oh with
  | nil => intro orig acc n _; rfl
  | cons nv rest ih =>
    intro orig acc n hall
    by_cases hg : truthyOpt (lookupJs (toLowerJs nv.1) orig) = true
    · have hne : ¬toLowerJs nv.1 = n := fun he => hall nv (by simp) ⟨he, hg⟩
      simp only [Kasada.mutateHeadersGo, hg, if_true]
      rw [ih orig _ n (fun kv hkv => hall kv (by simp [hkv])), lookup_assocSet]
      simp [hne]
    · have hgb : truthyOpt (lookupJs (toLowerJs nv.1) orig) = false := by
        cases hv : truthyOpt (lookupJs (toLowerJs nv.1) orig)
        · rfl
        · exact absurd hv hg
      simp only [Kasada.mutateHeadersGo, hgb, Bool.false_eq_true, if_false]
      exact ih orig acc n (fun kv hkv => hall kv (by simp [hkv]))

theorem mutateHeadersGo_append :
    ∀ (l₁ l₂ orig acc : List (String × String)),
      Kasada.mutateHeadersGo orig acc (l₁ ++ l₂) =
        Kasada.mutateHeadersGo orig (Kasada.mutateHeadersGo orig acc l₁) l₂ := by
  intro l₁
  induction l₁ with
  | nil => intro l₂ orig acc; rfl
  | cons nv rest ih =>
    intro l₂ orig acc
    simp only [List.cons_append, Kasada.mutateHeadersGo]
    exact ih l₂ orig _

/-- C8 (amended): when a TL POST is mutated, an oracle header overwrites
the outgoing header iff its lowercased name is present on the original
request with a non-empty value; headers not named by the oracle, and
oracle headers whose name is absent or empty on the original request,
are left untouched; and the new body is exactly the base64-decoded oracle
payload. -/
theorem kasada_header_frame_rule :
    ∀ (orig oh : List (String × String)) (n : String),
      ((∀ kv ∈ oh, toLowerJs kv.1 ≠ n) →
        lookupJs n (Kasada.mutateHeaders orig oh) = lookupJs n orig) ∧
      (truthyOpt (lookupJs n orig) = false →
        lookupJs n (Kasada.mutateHeaders orig oh) = lookupJs n orig) ∧
      (∀ k v l₁ l₂, oh = l₁ ++ (k, v) :: l₂ → toLowerJs k = n →
        (∀ kv ∈ l₁, toLowerJs kv.1 ≠ n) → (∀ kv ∈ l₂, toLowerJs kv.1 ≠ n) →
        truthyOpt (lookupJs n orig) = true →
        lookupJs n (Kasada.mutateHeaders orig oh) = some v) ∧
      (∀ (oracle : Kasada.KasadaPayloadInput → Kasada.KasadaPayloadResult)
          (ua : String) (st : Kasada.State) (hdrs : List (String × String)),
        truthyOpt st.ipsResponseText = true →
        ∃ i st', Kasada.completeTl oracle ua st hdrs =
          (st', Kasada.TlOutcome.mutated i
            (Kasada.mutateHeaders hdrs (oracle i).headers)
            (base64Decode (oracle i).payload))) := by
  intro orig oh n
  refine ⟨?_, ?_, ?_, ?_⟩
  · intro hall
    exact lookup_mutateHeadersGo_untouched oh orig orig n
      (fun kv hkv hand => hall kv hkv hand.1)
  · intro hfalse
    refine lookup_mutateHeadersGo_untouched oh orig orig n ?_
    rintro kv _ ⟨he, hg⟩
    rw [he, hfalse] at hg
    exact Bool.false_ne_true hg
  · intro k v l₁ l₂ heq hk hl₁ hl₂ htruthy
    subst heq
    unfold Kasada.mutateHeaders
    rw [mutateHeadersGo_append]
    have hguard : truthyOpt (lookupJs (toLowerJs k) orig) = true := by rw [hk]; exact htruthy
    simp only [Kasada.mutateHeadersGo, hguard, if_true]
    rw [lookup_mutateHeadersGo_untouched l₂ orig _ n
      (fun kv hkv hand => hl₂ kv hkv hand.1)]
    rw [hk, lookup_assocSet]
    simp
  · intro oracle ua st hdrs htruthy
    refine ⟨{ userAgent := if truthyStr st.userAgent then st.userAgent else ua
              ipsScriptUrl := st.ipsScriptUrl
              ipsResponseText := st.ipsResponseText.getD ""
              ipAddress := st.ipAddress
              acceptLanguage := st.acceptLanguage },
      { st with userAgent := if truthyStr st.userAgent then st.userAgent else ua }, ?_⟩
    simp [Kasada.completeTl, htruthy]

/-- C8 witness: an oracle header whose lowercased name is present with a
non-empty value on the original request does overwrite it. -/
theorem kasada_header_frame_rule_witness :
    lookupJs "x-kpsdk-ct"
        (Kasada.mutateHeaders [("x-kpsdk-ct", "T")] [("X-KPSDK-CT", "new")]) =
      some "new" :=
  (kasada_header_frame_rule [("x-kpsdk-ct", "T")] [("X-KPSDK-CT", "new")]
      "x-kpsdk-ct").2.2.1 "X-KPSDK-CT" "new" [] [] rfl rfl
    (fun kv h => absurd h (List.not_mem_nil kv))
    (fun kv h => absurd h (List.not_mem_nil kv)) rfl

/-- C2 (amended): in the static variant the refresh pass-through is
decided solely by content type: a POST to a mapped script path with a
resolvable tenant and content type `application/json` has its body
replaced by the oracle result (even when the body starts with a quote),
while the identical POST with content type `text/plain` is forwarded
unmodified. -/
theorem incapsula_static_content_type_gate :
    ∀ (oracle : IncapsulaStatic.Reese84Input → String) (st : IncapsulaStatic.State)
      (pageUrl pageUserAgent : String) (req : IncapsulaStatic.Request) (p sk : String),
      IncapsulaStatic.findMatchingScriptPath st req.url = some p →
      req.method = "POST" →
      lookupJs p st.scriptPathToSitekey = some sk →
      truthyStr sk = true →
      truthyOpt (req.url.searchParamsGet "d") = true →
      (req.contentType = some "application/json" →
        ∃ st' inp,
          IncapsulaStatic.interceptStep oracle st pageUrl pageUserAgent req =
            (st', IncapsulaStatic.Outcome.continueWithBody (oracle inp))) ∧
      (req.contentType = some "text/plain" →
        (IncapsulaStatic.interceptStep oracle st pageUrl pageUserAgent req).2 =
          IncapsulaStatic.Outcome.continueOriginal) := by
  intro oracle st pageUrl pageUA req p sk hfind hmethod hlookup hsk hd
  have hstarts : startsWithJs req.url.pathname p = true :=
    (findKeyLoop_eq_some _ _ p hfind).1
  have hincl : includesJs req.url.href p = true :=
    includesJs_href_of_pathname_match _ _ hstarts
  have hshould :
      IncapsulaStatic.shouldInterceptIncapsulaRequest req.url req.method p = true := by
    simp [IncapsulaStatic.shouldInterceptIncapsulaRequest, hmethod, hincl]
  have hsite : IncapsulaStatic.getSitekeyForRequest st req.url p = some sk := by
    simp [IncapsulaStatic.getSitekeyForRequest, hd, hlookup, hsk]
  constructor
  · intro hct
    have hj : includesJs "application/json" "application/json" = true := by decide
    simp only [IncapsulaStatic.interceptStep, hfind, hshould, if_true,
      IncapsulaStatic.handleIncapsulaRequest, hct, hj, Bool.not_true,
      Bool.false_eq_true, if_false, hsite]
    exact ⟨_, _, rfl⟩
  · intro hct
    have hnj : includesJs "text/plain" "application/json" = false := by decide
    simp [IncapsulaStatic.interceptStep, hfind, hshould,
      IncapsulaStatic.handleIncapsulaRequest, hct, hnj]

/-- C2 witness: on the map `/resource ↦ tenantA`, the JSON POST is
mutated to the oracle result and the identical `text/plain` POST is
forwarded unmodified. -/
theorem incapsula_static_content_type_gate_witness :
    (∃ st' : IncapsulaStatic.State,
      IncapsulaStatic.interceptStep (fun _ => "O") exIncStaticState
          "https://x.com/" "UA" exIncReqJson =
        (st', IncapsulaStatic.Outcome.continueWithBody "O")) ∧
    (IncapsulaStatic.interceptStep (fun _ => "O") exIncStaticState
        "https://x.com/" "UA" exIncReqPlain).2 =
      IncapsulaStatic.Outcome.continueOriginal := by
  constructor
  · obtain ⟨st', _, h⟩ :=
      (incapsula_static_content_type_gate (fun _ => "O") exIncStaticState "https://x.com/"
        "UA" exIncReqJson "/resource" "tenantA" rfl rfl rfl rfl rfl).1 rfl
    exact ⟨st', h⟩
  · exact (incapsula_static_content_type_gate (fun _ => "O") exIncStaticState
      "https://x.com/" "UA" exIncReqPlain "/resource" "tenantA" rfl rfl rfl rfl rfl).2 rfl

/-- One successfully mutated SBSD POST observes index zero when the URL
carries `t` and the current counter otherwise, and always increments the
persisted counter. -/
theorem handleSbsdRequest_success (oracle : Akamai.SbsdInput → String)
    (st : Akamai.State) (pageUrl pageUserAgent : String)
    (cookies : List (String × String)) (u : Url)
    (h1 : truthyOpt (Akamai.bmsoValue cookies) = true)
    (h2 : truthyOpt st.scriptCapture.sbsdResponseText = true)
    (h3 : truthyOpt st.scriptCapture.sbsdUuid = true) :
    Akamai.handleSbsdRequest oracle st pageUrl pageUserAgent cookies u =
      ({ st with
          sbsdIndex := st.sbsdIndex + 1,
          userAgent := if truthyStr st.userAgent then st.userAgent else pageUserAgent },
        Akamai.SbsdOutcome.mutated
          { index := if u.searchParamsHas "t" then 0 else st.sbsdIndex
            uuid := (st.scriptCapture.sbsdUuid).getD ""
            cookie := (Akamai.bmsoValue cookies).getD ""
            pageUrl := pageUrl
            userAgent := if truthyStr st.userAgent then st.userAgent else pageUserAgent
            script := (st.scriptCapture.sbsdResponseText).getD ""
            ipAddress := st.ipAddress
            acceptLanguage := st.acceptLanguage }
          ("\x7b\"body\":" ++
            jsonQuote (oracle
              { index := if u.searchParamsHas "t" then 0 else st.sbsdIndex
                uuid := (st.scriptCapture.sbsdUuid).getD ""
                cookie := (Akamai.bmsoValue cookies).getD ""
                pageUrl := pageUrl
                userAgent := if truthyStr st.userAgent then st.userAgent else pageUserAgent
                script := (st.scriptCapture.sbsdResponseText).getD ""
                ipAddress := st.ipAddress
                acceptLanguage := st.acceptLanguage }) ++ "\x7d")) := by
  simp [Akamai.handleSbsdRequest, h1, h2, h3]

/-- Observed indices of a run of `n` intercepted non-refresh POSTs: the
counter values `sbsdIndex, sbsdIndex + 1, …`. -/
theorem runSbsd_replicate_post (oracle : Akamai.SbsdInput → String)
    (pageUrl pageUserAgent : String) (cookies : List (String × String)) (u : Url) :
    ∀ (n : Nat) (st : Akamai.State),
      Akamai.shouldInterceptSbsdRequest st u.href "POST" = true →
      truthyOpt (Akamai.bmsoValue cookies) = true →
      truthyOpt st.scriptCapture.sbsdResponseText = true →
      truthyOpt st.scriptCapture.sbsdUuid = true →
      u.searchParamsHas "t" = false →
      Akamai.observedIndices
          (Akamai.runSbsd oracle pageUrl pageUserAgent st
            (List.replicate n (Akamai.SbsdEvent.post u cookies))).2 =
        (List.range n).map (st.sbsdIndex + ·) := by
  intro n
  induction n with
  | zero => intro st _ _ _ _ _; simp [Akamai.runSbsd, Akamai.observedIndices]
  | succ n ih =>
    intro st hshould h1 h2 h3 ht
    rw [List.replicate_succ]
    have hstep := handleSbsdRequest_success oracle st pageUrl pageUserAgent cookies u h1 h2 h3
    simp only [Akamai.runSbsd, Akamai.sbsdStep, hshould, if_true, hstep, ht,
      Bool.false_eq_true]
    have ihs := ih { st with
        sbsdIndex := st.sbsdIndex + 1,
        userAgent := if truthyStr st.userAgent then st.userAgent else pageUserAgent }
      hshould h1 h2 h3 ht
    simp only [Akamai.observedIndices] at ihs ⊢
    rw [List.filterMap_append, ihs, List.range_succ_eq_map]
    simp only [List.filterMap_cons, List.filterMap_nil, if_false, List.map_cons,
      List.map_map, Nat.add_zero, List.singleton_append, List.nil_append]
    congr 1
    apply List.map_congr_left
    intro k _
    simp only [Function.comp_apply]
    omega

/-- C1 (amended): starting from a fresh SBSD capture, successive
successfully mutated non-refresh POSTs observe indices 0, 1, 2, … in
sequence; a POST whose URL carries the time-refresh parameter `t`
observes index 0; but every successful mutation, with or without `t`,
increments the persisted counter by one. -/
theorem akamai_sbsd_monotonic_index :
    (∀ (oracle : Akamai.SbsdInput → String) (st : Akamai.State)
        (pageUrl pageUserAgent : String) (cookies : List (String × String)) (u : Url),
      truthyOpt (Akamai.bmsoValue cookies) = true →
      truthyOpt st.scriptCapture.sbsdResponseText = true →
      truthyOpt st.scriptCapture.sbsdUuid = true →
      (Akamai.handleSbsdRequest oracle st pageUrl pageUserAgent cookies u).1.sbsdIndex =
          st.sbsdIndex + 1 ∧
        ∃ i b,
          (Akamai.handleSbsdRequest oracle st pageUrl pageUserAgent cookies u).2 =
              Akamai.SbsdOutcome.mutated i b ∧
            i.index = if u.searchParamsHas "t" = true then 0 else st.sbsdIndex) ∧
    (∀ (oracle : Akamai.SbsdInput → String) (st : Akamai.State)
        (pageUrl pageUserAgent : String) (cookies : List (String × String)) (u : Url)
        (n : Nat),
      Akamai.shouldInterceptSbsdRequest st u.href "POST" = true →
      truthyOpt (Akamai.bmsoValue cookies) = true →
      truthyOpt st.scriptCapture.sbsdResponseText = true →
      truthyOpt st.scriptCapture.sbsdUuid = true →
      u.searchParamsHas "t" = false →
      Akamai.observedIndices
          (Akamai.runSbsd oracle pageUrl pageUserAgent st
            (List.replicate n (Akamai.SbsdEvent.post u cookies))).2 =
        (List.range n).map (st.sbsdIndex + ·)) := by
  constructor
  · intro oracle st pageUrl pageUserAgent cookies u h1 h2 h3
    rw [handleSbsdRequest_success oracle st pageUrl pageUserAgent cookies u h1 h2 h3]
    exact ⟨rfl, _, _, rfl, rfl⟩
  · intro oracle st pageUrl pageUserAgent cookies u n hshould h1 h2 h3 ht
    exact runSbsd_replicate_post oracle pageUrl pageUserAgent cookies u n st
      hshould h1 h2 h3 ht

/-- C1 witness: three intercepted non-refresh POSTs after the capture of
`exSbsdScriptUrl` observe indices 0, 1, 2. -/
theorem akamai_sbsd_monotonic_index_witness :
    Akamai.observedIndices
        (Akamai.runSbsd (fun _ => "R") "https://a.com/" "UA" akCaptured
          (List.replicate 3 (Akamai.SbsdEvent.post exSbsdPostUrl exSbsdCookies))).2 =
      (List.range 3).map (akCaptured.sbsdIndex + ·) :=
  akamai_sbsd_monotonic_index.2 (fun _ => "R") akCaptured "https://a.com/" "UA"
    exSbsdCookies exSbsdPostUrl 3 rfl rfl rfl rfl rfl

theorem completeTl_preserves (oracle : Kasada.KasadaPayloadInput → Kasada.KasadaPayloadResult)
    (ua : String) (st : Kasada.State) (hdrs : List (String × String)) :
    (Kasada.completeTl oracle ua st hdrs).1.gateSatisfied = st.gateSatisfied ∧
    (Kasada.completeTl oracle ua st hdrs).1.ipsResponseText = st.ipsResponseText := by
  cases hv : truthyOpt st.ipsResponseText <;> simp [Kasada.completeTl, hv]

theorem completeTl_mutated (oracle : Kasada.KasadaPayloadInput → Kasada.KasadaPayloadResult)
    (ua : String) (st : Kasada.State) (hdrs : List (String × String)) (B : String)
    (hips : st.ipsResponseText = some B) (hB : truthyStr B = true) :
    ∃ i, Kasada.completeTl oracle ua st hdrs =
      ({ st with userAgent := if truthyStr st.userAgent then st.userAgent else ua },
        Kasada.TlOutcome.mutated i (Kasada.mutateHeaders hdrs (oracle i).headers)
          (base64Decode (oracle i).payload)) ∧ i.ipsResponseText = B := by
  have htr : truthyOpt st.ipsResponseText = true := by rw [hips]; exact hB
  refine ⟨{ userAgent := if truthyStr st.userAgent then st.userAgent else ua
            ipsScriptUrl := st.ipsScriptUrl
            ipsResponseText := st.ipsResponseText.getD ""
            ipAddress := st.ipAddress
            acceptLanguage := st.acceptLanguage }, ?_, ?_⟩
  · simp [Kasada.completeTl, htr]
  · rw [hips]; rfl

theorem flushWaiting_preserves
    (oracle : Kasada.KasadaPayloadInput → Kasada.KasadaPayloadResult) (ua : String) :
    ∀ (outs : List Kasada.TlOutcome) (st : Kasada.State),
      (Kasada.flushWaiting oracle ua st outs).1.gateSatisfied = st.gateSatisfied ∧
      (Kasada.flushWaiting oracle ua st outs).1.ipsResponseText = st.ipsResponseText := by
  intro outs
  induction outs with
  | nil => intro st; exact ⟨rfl, rfl⟩
  | cons o rest ih =>
    intro st
    cases o with
    | waiting hdrs =>
      have hc := completeTl_preserves oracle ua st hdrs
      have hr := ih (Kasada.completeTl oracle ua st hdrs).1
      simp only [Kasada.flushWaiting]
      exact ⟨hr.1.trans hc.1, hr.2.trans hc.2⟩
    | notIntercepted =>
      have hr := ih st
      simp only [Kasada.flushWaiting]
      exact hr
    | continueOriginal =>
      have hr := ih st
      simp only [Kasada.flushWaiting]
      exact hr
    | mutated i hd bd =>
      have hr := ih st
      simp only [Kasada.flushWaiting]
      exact hr

theorem runKasada_no_obs_safety
    (oracle : Kasada.KasadaPayloadInput → Kasada.KasadaPayloadResult) (ua : String) :
    ∀ (events : List Kasada.KEvent) (st : Kasada.State) (outs : List Kasada.TlOutcome),
      st.gateSatisfied = false →
      (∀ e ∈ events, Kasada.isIpsObservation e = false) →
      (∀ o ∈ outs, ∀ i hd bd, o ≠ Kasada.TlOutcome.mutated i hd bd) →
      ∀ o ∈ (events.foldl (Kasada.kasadaStep oracle ua) (st, outs)).2,
        ∀ i hd bd, o ≠ Kasada.TlOutcome.mutated i hd bd := by
  intro events
  induction events with
  | nil => intro st outs _ _ houts; simpa using houts
  | cons e rest ih =>
    intro st outs hg hobs houts
    have hobs_rest : ∀ e' ∈ rest, Kasada.isIpsObservation e' = false :=
      fun e' he' => hobs e' (by simp [he'])
    cases e with
    | response url body =>
      have hp : Kasada.ipsScriptPattern url = false := by
        have := hobs (Kasada.KEvent.response url body) (by simp)
        simpa [Kasada.isIpsObservation] using this
      have hstep : Kasada.kasadaStep oracle ua (st, outs) (Kasada.KEvent.response url body) =
          (st, outs) := by
        simp [Kasada.kasadaStep, hp]
      rw [List.foldl_cons, hstep]
      exact ih st outs hg hobs_rest houts
    | tlPost url method hdrs =>
      rw [List.foldl_cons]
      by_cases hi : Kasada.shouldInterceptTlRequest url method = true
      · have hstep : Kasada.kasadaStep oracle ua (st, outs)
            (Kasada.KEvent.tlPost url method hdrs) =
            (st, outs ++ [Kasada.TlOutcome.waiting hdrs]) := by
          simp [Kasada.kasadaStep, hi, hg]
        rw [hstep]
        refine ih st _ hg hobs_rest ?_
        intro o ho i hd bd
        rcases List.mem_append.mp ho with ho | ho
        · exact houts o ho i hd bd
        · simp only [List.mem_singleton] at ho
          subst ho
          simp
      · have hib : Kasada.shouldInterceptTlRequest url method = false := by
          cases hv : Kasada.shouldInterceptTlRequest url method
          · rfl
          · exact absurd hv hi
        have hstep : Kasada.kasadaStep oracle ua (st, outs)
            (Kasada.KEvent.tlPost url method hdrs) =
            (st, outs ++ [Kasada.TlOutcome.notIntercepted]) := by
          simp [Kasada.kasadaStep, hib]
        rw [hstep]
        refine ih st _ hg hobs_rest ?_
        intro o ho i hd bd
        rcases List.mem_append.mp ho with ho | ho
        · exact houts o ho i hd bd
        · simp only [List.mem_singleton] at ho
          subst ho
          simp

theorem runKasada_after_obs
    (oracle : Kasada.KasadaPayloadInput → Kasada.KasadaPayloadResult)
    (ua : String) (B : String) (hB : truthyStr B = true) :
    ∀ (events : List Kasada.KEvent) (st : Kasada.State) (outs : List Kasada.TlOutcome),
      st.gateSatisfied = true → st.ipsResponseText = some B →
      (∀ e ∈ events, Kasada.isIpsObservation e = false) →
      ∃ extra, (events.foldl (Kasada.kasadaStep oracle ua) (st, outs)).2 = outs ++ extra ∧
        ∀ o ∈ extra, o = Kasada.TlOutcome.notIntercepted ∨
          ∃ i hd bd, o = Kasada.TlOutcome.mutated i hd bd ∧ i.ipsResponseText = B := by
  intro events
  induction events with
  | nil =>
    intro st outs _ _ _
    exact ⟨[], by simp, by simp⟩
  | cons e rest ih =>
    intro st outs hg hips hobs
    have hobs_rest : ∀ e' ∈ rest, Kasada.isIpsObservation e' = false :=
      fun e' he' => hobs e' (by simp [he'])
    cases e with
    | response url body =>
      have hp : Kasada.ipsScriptPattern url = false := by
        have := hobs (Kasada.KEvent.response url body) (by simp)
        simpa [Kasada.isIpsObservation] using this
      have hstep : Kasada.kasadaStep oracle ua (st, outs) (Kasada.KEvent.response url body) =
          (st, outs) := by
        simp [Kasada.kasadaStep, hp]
      rw [List.foldl_cons, hstep]
      exact ih st outs hg hips hobs_rest
    | tlPost url method hdrs =>
      rw [List.foldl_cons]
      by_cases hi : Kasada.shouldInterceptTlRequest url method = true
      · obtain ⟨i, hct, hiB⟩ := completeTl_mutated oracle ua st hdrs B hips hB
        have hstep : Kasada.kasadaStep oracle ua (st, outs)
            (Kasada.KEvent.tlPost url method hdrs) =
            ({ st with userAgent := if truthyStr st.userAgent then st.userAgent else ua },
              outs ++ [Kasada.TlOutcome.mutated i
                (Kasada.mutateHeaders hdrs (oracle i).headers)
                (base64Decode (oracle i).payload)]) := by
          simp only [Kasada.kasadaStep, hi, if_true, hg, hct]
        rw [hstep]
        obtain ⟨extra, heq, hall⟩ := ih
          { st with userAgent := if truthyStr st.userAgent then st.userAgent else ua }
          (outs ++ [Kasada.TlOutcome.mutated i (Kasada.mutateHeaders hdrs (oracle i).headers)
            (base64Decode (oracle i).payload)]) hg hips hobs_rest
        refine ⟨Kasada.TlOutcome.mutated i (Kasada.mutateHeaders hdrs (oracle i).headers)
          (base64Decode (oracle i).payload) :: extra, ?_, ?_⟩
        · rw [heq, List.append_assoc]
          rfl
        · intro o ho
          rcases List.mem_cons.mp ho with ho | ho
          · exact Or.inr ⟨i, _, _, ho, hiB⟩
          · exact hall o ho
      · have hib : Kasada.shouldInterceptTlRequest url method = false := by
          cases hv : Kasada.shouldInterceptTlRequest url method
          · rfl
          · exact absurd hv hi
        have hstep : Kasada.kasadaStep oracle ua (st, outs)
            (Kasada.KEvent.tlPost url method hdrs) =
            (st, outs ++ [Kasada.TlOutcome.notIntercepted]) := by
          simp [Kasada.kasadaStep, hib]
        rw [hstep]
        obtain ⟨extra, heq, hall⟩ := ih st (outs ++ [Kasada.TlOutcome.notIntercepted])
          hg hips hobs_rest
        refine ⟨Kasada.TlOutcome.notIntercepted :: extra, ?_, ?_⟩
        · rw [heq, List.append_assoc]
          rfl
        · intro o ho
          rcases List.mem_cons.mp ho with ho | ho
          · exact Or.inl ho
          · exact hall o ho

/-- C3 (amended): no TL POST is ever mutated in a trace with no matching
IPS observation; a matching IPS observation satisfies the gate and caches
the observed body; and once the gate is satisfied with a non-empty cached
body `B`, every later intercepted TL POST is mutated with oracle input
carrying exactly `B` (an empty cached body instead forwards unmodified,
fail-open). -/
theorem kasada_gating :
    (∀ (oracle : Kasada.KasadaPayloadInput → Kasada.KasadaPayloadResult) (ua : String)
        (st : Kasada.State) (events : List Kasada.KEvent),
      st.gateSatisfied = false →
      (∀ e ∈ events, Kasada.isIpsObservation e = false) →
      ∀ o ∈ (Kasada.runKasada oracle ua st events).2,
        ∀ i hd bd, o ≠ Kasada.TlOutcome.mutated i hd bd) ∧
    (∀ (oracle : Kasada.KasadaPayloadInput → Kasada.KasadaPayloadResult) (ua : String)
        (st : Kasada.State) (outs : List Kasada.TlOutcome) (events : List Kasada.KEvent)
        (B : String),
      st.gateSatisfied = true → st.ipsResponseText = some B → truthyStr B = true →
      (∀ e ∈ events, Kasada.isIpsObservation e = false) →
      ∃ extra, (events.foldl (Kasada.kasadaStep oracle ua) (st, outs)).2 = outs ++ extra ∧
        ∀ o ∈ extra, o = Kasada.TlOutcome.notIntercepted ∨
          ∃ i hd bd, o = Kasada.TlOutcome.mutated i hd bd ∧ i.ipsResponseText = B) ∧
    (∀ (oracle : Kasada.KasadaPayloadInput → Kasada.KasadaPayloadResult) (ua : String)
        (st : Kasada.State) (outs : List Kasada.TlOutcome) (url method : String)
        (hdrs : List (String × String)) (B : String),
      st.gateSatisfied = true → st.ipsResponseText = some B → truthyStr B = true →
      Kasada.shouldInterceptTlRequest url method = true →
      ∃ i hd bd,
        (Kasada.kasadaStep oracle ua (st, outs) (Kasada.KEvent.tlPost url method hdrs)).2 =
          outs ++ [Kasada.TlOutcome.mutated i hd bd] ∧ i.ipsResponseText = B) ∧
    (∀ (oracle : Kasada.KasadaPayloadInput → Kasada.KasadaPayloadResult) (ua : String)
        (st : Kasada.State) (outs : List Kasada.TlOutcome) (url B : String),
      Kasada.ipsScriptPattern url = true →
      (Kasada.kasadaStep oracle ua (st, outs) (Kasada.KEvent.response url B)).1.gateSatisfied =
          true ∧
        (Kasada.kasadaStep oracle ua (st, outs)
            (Kasada.KEvent.response url B)).1.ipsResponseText = some B) := by
  refine ⟨?_, ?_, ?_, ?_⟩
  · intro oracle ua st events hg hobs
    exact runKasada_no_obs_safety oracle ua events st [] hg hobs (by simp)
  · intro oracle ua st outs events B hg hips hB hobs
    exact runKasada_after_obs oracle ua B hB events st outs hg hips hobs
  · intro oracle ua st outs url method hdrs B hg hips hB hi
    obtain ⟨i, hct, hiB⟩ := completeTl_mutated oracle ua st hdrs B hips hB
    refine ⟨i, Kasada.mutateHeaders hdrs (oracle i).headers,
      base64Decode (oracle i).payload, ?_, hiB⟩
    simp only [Kasada.kasadaStep, hi, if_true, hg, hct]
  · intro oracle ua st outs url B hp
    by_cases hg : st.gateSatisfied = true
    · simp [Kasada.kasadaStep, hp, hg]
    · have hfl := flushWaiting_preserves oracle ua outs
        { st with ipsScriptUrl := some url, ipsResponseText := some B, gateSatisfied := true }
      constructor
      · simp only [Kasada.kasadaStep, hp, if_true]
        rw [if_neg hg]
        exact hfl.1
      · simp only [Kasada.kasadaStep, hp, if_true]
        rw [if_neg hg]
        exact hfl.2

/-- C3 witness: with the gate satisfied by the observation of the IPS
body `X`, an intercepted TL POST is mutated with oracle input carrying
`X`. -/
theorem kasada_gating_witness :
    ∃ i hd bd,
      (Kasada.kasadaStep exKasadaOracle "UA" (kasObserved, [])
          (Kasada.KEvent.tlPost exTlUrl "POST" [])).2 =
        [] ++ [Kasada.TlOutcome.mutated i hd bd] ∧
      i.ipsResponseText = "X" :=
  kasada_gating.2.2.1 exKasadaOracle "UA" kasObserved [] exTlUrl "POST" [] "X"
    rfl rfl rfl rfl

/-- C8 (counterexample): a header present on the original request with an
empty value is not overwritten by an oracle header of the same name,
refuting that presence alone triggers the overwrite. -/
theorem kasada_header_frame_claim_counterexample :
    (lookupJs "x-kpsdk-ct" [("x-kpsdk-ct", "")]).isSome = true ∧
    Kasada.mutateHeaders [("x-kpsdk-ct", "")] [("x-kpsdk-ct", "abc")] =
      [("x-kpsdk-ct", "")] ∧
    lookupJs "x-kpsdk-ct"
        (Kasada.mutateHeaders [("x-kpsdk-ct", "")] [("x-kpsdk-ct", "abc")]) ≠
      some "abc" := by
  refine ⟨rfl, rfl, by decide⟩

end HyperSdk
